import Mathlib

/-!
# Verification of the mobox streaming agent gateway

Shallow embedding of the event-streaming pipeline of the mobox repository:

* `src/shared/events.py`            — normalized event types and the event parser;
* `src/api/core/event_formatters.py` — the AI SDK SSE formatter;
* `src/api/routes/chat.py`          — the chat orchestrator and deferred commit;
* `src/api/core/sandbox/subprocess.py`, `src/api/core/sandbox/modal.py`
                                     — the two sandbox runners;
* `src/api/core/agents.py`          — env-var resolution.

Python values flowing through the pipeline are JSON-like; they are embedded as
the inductive type `JVal`.  Python operations that can raise (`x.get` on a
non-dict, iteration over a non-iterable, `int(...)` on a non-numeric value,
indexing, unhashable dict keys) are embedded in `Except PyErr`, so that
"the code raises on this input" is expressed as the embedded function
returning `.error`.  Machine-generated UUID fragments (`uuid.uuid4().hex[:8]`)
are abstracted as a fresh-name counter threaded through the state; everything
else follows the Python source line by line.
-/

/-- Embedded JSON-like Python value (dict / list / str / int / bool / None).
Python floats appearing in the pipeline (cost values) are modelled by the
integer constructor; no claim depends on fractional arithmetic. -/
inductive JVal where
  | null : JVal
  | bool : Bool → JVal
  | num : Int → JVal
  | str : String → JVal
  | arr : List JVal → JVal
  | obj : List (String × JVal) → JVal
deriving Repr

mutual

/-- Structural equality on embedded values (Python `==` restricted to the
shapes that occur in the pipeline). -/
def JVal.beq : JVal → JVal → Bool
  | .null, .null => true
  | .bool a, .bool b => a == b
  | .num a, .num b => a == b
  | .str a, .str b => a == b
  | .arr a, .arr b => JVal.beqList a b
  | .obj a, .obj b => JVal.beqFields a b
  | _, _ => false

def JVal.beqList : List JVal → List JVal → Bool
  | [], [] => true
  | a :: as_, b :: bs => JVal.beq a b && JVal.beqList as_ bs
  | _, _ => false

def JVal.beqFields : List (String × JVal) → List (String × JVal) → Bool
  | [], [] => true
  | (ka, va) :: as_, (kb, vb) :: bs => ka == kb && JVal.beq va vb && JVal.beqFields as_ bs
  | _, _ => false

end

instance : BEq JVal := ⟨JVal.beq⟩

/-- Python errors that the embedded operations can raise. -/
inductive PyErr where
  | attributeError : PyErr
  | typeError : PyErr
  | valueError : PyErr
deriving Repr, DecidableEq

/-- Python truthiness (`if v:`) for the embedded values. -/
def truthy : JVal → Bool
  | .null => false
  | .bool b => b
  | .num n => n != 0
  | .str s => s != ""
  | .arr xs => !xs.isEmpty
  | .obj fs => !fs.isEmpty

/-- First binding of a key in an embedded dict (Python dict keys are unique;
association lists with left-most lookup model them). -/
def lookupField (fs : List (String × JVal)) (k : String) : Option JVal :=
  (fs.find? (fun p => p.1 == k)).map (fun p => p.2)

/-- `d.get(k, default)` on a value already known to be a dict. -/
def dGet (fs : List (String × JVal)) (k : String) (d : JVal) : JVal :=
  (lookupField fs k).getD d

/-- `v.get(k, default)` on an arbitrary value: raises `AttributeError` unless
`v` is a dict (mirrors CPython attribute lookup on non-mapping objects). -/
def pyGet (v : JVal) (k : String) (d : JVal) : Except PyErr JVal :=
  match v with
  | .obj fs => .ok (dGet fs k d)
  | _ => .error .attributeError

/-- Python `str(v)` for embedded values (total).  Containers are rendered
canonically; only scalar renderings are relied upon by any claim. -/
def pyStr : JVal → String
  | .null => "None"
  | .bool b => if b then "True" else "False"
  | .num n => toString n
  | .str s => s
  | .arr _ => "[...]"
  | .obj _ => "\x7b...\x7d"

/-- Python `int(v)`: identity on ints, bool coercion, decimal parse on
strings, `TypeError`/`ValueError` otherwise. -/
def pyInt : JVal → Except PyErr Int
  | .num n => .ok n
  | .bool b => .ok (if b then 1 else 0)
  | .str s =>
      match s.toInt? with
      | some n => .ok n
      | none => .error .valueError
  | _ => .error .typeError

/-- Python `float(v)` restricted to the embedded (integer-valued) numbers:
numeric input passes through, bools coerce, anything else raises.  (CPython
additionally parses numeric strings; no claim exercises that case.) -/
def pyFloat : JVal → Except PyErr Int
  | .num n => .ok n
  | .bool b => .ok (if b then 1 else 0)
  | _ => .error .typeError

/-- Python `k in v` for a string key: key test on dicts, substring test on
strings, membership on lists, `TypeError` on scalars. -/
def pyIn (k : String) (v : JVal) : Except PyErr Bool :=
  match v with
  | .obj fs => .ok ((lookupField fs k).isSome)
  | .str s => .ok ((s.splitOn k).length > 1)
  | .arr xs => .ok (xs.any (fun x => JVal.beq x (.str k)))
  | _ => .error .typeError

/-- Python `v[k]` for a string key after a successful `k in v` test on a
dict; raises `TypeError` on every non-dict (string/list indices are ints). -/
def pySubscript (v : JVal) (k : String) : Except PyErr JVal :=
  match v with
  | .obj fs =>
      match lookupField fs k with
      | some x => .ok x
      | none => .error .valueError
  | _ => .error .typeError

/-- Python iteration `for t in v`: lists yield elements, strings yield
1-character strings, dicts yield their keys, scalars raise `TypeError`. -/
def pyIter : JVal → Except PyErr (List JVal)
  | .arr xs => .ok xs
  | .str s => .ok (s.toList.map (fun c => JVal.str (String.mk [c])))
  | .obj fs => .ok (fs.map (fun p => JVal.str p.1))
  | _ => .error .typeError

/-- Hashability check for use of a value as a dict key / set element
(`dict[v] = …`, `set.add(v)`); lists and dicts raise `TypeError`. -/
def pyKey (v : JVal) : Except PyErr JVal :=
  match v with
  | .arr _ => .error .typeError
  | .obj _ => .error .typeError
  | _ => .ok v

/-- `s.endswith(t)` — attribute lookup raises unless the value is a string. -/
def pyEndsWith (v : JVal) (t : String) : Except PyErr Bool :=
  match v with
  | .str s => .ok (s.endsWith t)
  | _ => .error .attributeError

/-- Python slicing `v[:50]` (valid on strings and lists, `TypeError` else). -/
def pySliceTo50 : JVal → Except PyErr JVal
  | .str s => .ok (.str (String.mk (s.toList.take 50)))
  | .arr xs => .ok (.arr (xs.take 50))
  | _ => .error .typeError

/-- Python `len(v)` (strings, lists, dicts; `TypeError` on scalars). -/
def pyLen : JVal → Except PyErr Int
  | .str s => .ok s.length
  | .arr xs => .ok xs.length
  | .obj fs => .ok fs.length
  | _ => .error .typeError

/-- Comparison of an arbitrary value with a string literal
(Python `v == "lit"`: only equal when `v` is that string). -/
def isStrEq (v : JVal) (s : String) : Bool :=
  match v with
  | .str t => t == s
  | _ => false

/-- Assoc-list store keyed by (hashable) embedded values — models the
`dict[index → id]` maps of parser and formatter state. -/
def jSet (m : List (JVal × JVal)) (k v : JVal) : List (JVal × JVal) :=
  match m with
  | [] => [(k, v)]
  | (k', v') :: rest => if JVal.beq k' k then (k, v) :: rest else (k', v') :: jSet rest k v

/-- Lookup in a `JVal`-keyed store. -/
def jLookup (m : List (JVal × JVal)) (k : JVal) : Option JVal :=
  ((m.find? (fun p => JVal.beq p.1 k)).map (fun p => p.2))

/-- `m.get(k, d)` on a `JVal`-keyed store. -/
def jGetD (m : List (JVal × JVal)) (k : JVal) (d : JVal) : JVal :=
  (jLookup m k).getD d

/-- Membership `k in m` for the `JVal`-keyed store. -/
def jHas (m : List (JVal × JVal)) (k : JVal) : Bool :=
  (jLookup m k).isSome

/-- Set insertion (`set.add`) for the index sets of parser/formatter state. -/
def jAdd (s : List JVal) (k : JVal) : List JVal :=
  if s.any (fun x => JVal.beq x k) then s else s ++ [k]

/-- Set removal (`set.discard`). -/
def jDiscard (s : List JVal) (k : JVal) : List JVal :=
  s.filter (fun x => !JVal.beq x k)

mutual

/-- `json.dumps` with CPython's default separators (`", "` and `": "`);
string escaping is the identity (no claim feeds strings needing escapes). -/
def jsonDumps : JVal → String
  | .null => "null"
  | .bool b => if b then "true" else "false"
  | .num n => toString n
  | .str s => "\"" ++ s ++ "\""
  | .arr xs => "[" ++ jsonDumpsList xs ++ "]"
  | .obj fs => "\x7b" ++ jsonDumpsFields fs ++ "\x7d"

def jsonDumpsList : List JVal → String
  | [] => ""
  | [x] => jsonDumps x
  | x :: rest => jsonDumps x ++ ", " ++ jsonDumpsList rest

def jsonDumpsFields : List (String × JVal) → String
  | [] => ""
  | [(k, v)] => "\"" ++ k ++ "\": " ++ jsonDumps v
  | (k, v) :: rest => "\"" ++ k ++ "\": " ++ jsonDumps v ++ ", " ++ jsonDumpsFields rest

end

/-! ## Normalized events and the event parser (`src/shared/events.py`) -/

/-- The closed set of normalized event types (`EventType` in
`src/shared/events.py`). -/
inductive EventType where
  | START | DONE | ERROR | PING | STATUS
  | TEXT | TEXT_DELTA | THINKING | THINKING_DELTA
  | TOOL_USE_START | TOOL_USE_DELTA | TOOL_USE_END | TOOL_RESULT
  | METADATA | USAGE | RESULT
  | TODO_CREATE | TODO_UPDATE | TODO_DONE
  | RAW | UNKNOWN
deriving Repr, DecidableEq

/-- Normalized event (`StreamEvent` dataclass).  `index` and `id` use
`JVal.null` for Python `None`; the dataclass's type annotations are not
enforced at runtime, so both fields may hold arbitrary values. -/
structure StreamEvent where
  type : EventType
  data : JVal := .obj []
  index : JVal := .null
  id : JVal := .null
deriving Repr

/-- Mutable state of one `EventParser` instance.  `ctr` is the fresh-name
supply standing in for `uuid.uuid4().hex[:8]`. -/
structure ParserState where
  accText : List JVal := []
  accThinking : List JVal := []
  sdkSessionId : JVal := .null
  textIds : List (JVal × JVal) := []
  thinkingIds : List (JVal × JVal) := []
  toolIds : List (JVal × JVal) := []
  activeText : List JVal := []
  activeThinking : List JVal := []
  ctr : Nat := 0
deriving Repr

/-- A fresh synthesized id (`f"text_{uuid.uuid4().hex[:8]}"` etc.). -/
def freshName (st : ParserState) (pre : String) : String × ParserState :=
  (pre ++ toString st.ctr, { st with ctr := st.ctr + 1 })

/-- `content if content.endswith("\n") else content + "\n"` (the value is
known to be a string when this is reached). -/
def appendNl : JVal → JVal
  | .str s => .str (s ++ "\n")
  | v => v

/-- `message_start` handler of `EventParser._parse_claude`. -/
def handleMessageStart (st : ParserState) (raw : List (String × JVal)) :
    Except PyErr (StreamEvent × ParserState) := do
  let message := dGet raw "message" (.obj [])
  let mid ← pyGet message "id" .null
  let st1 := if truthy mid then { st with sdkSessionId := mid } else st
  let model ← pyGet message "model" .null
  let usage ← pyGet message "usage" (.obj [])
  return (⟨.START, .obj [("model", model), ("usage", usage)], .null, .null⟩, st1)

/-- `content_block_start` handler of `EventParser._parse_claude`; unmatched
block types fall through to the final `UNKNOWN`-with-raw return. -/
def handleContentBlockStart (st : ParserState) (raw : List (String × JVal)) :
    Except PyErr (StreamEvent × ParserState) := do
  let index := dGet raw "index" (.num 0)
  let block := dGet raw "content_block" (.obj [])
  let btype ← pyGet block "type" .null
  if isStrEq btype "text" then do
    let (name, st1) := freshName st "text_"
    let k ← pyKey index
    let st2 := { st1 with textIds := jSet st1.textIds k (.str name),
                          activeText := jAdd st1.activeText k }
    return (⟨.TEXT, .obj [], index, .str name⟩, st2)
  else if isStrEq btype "tool_use" then do
    let (defName, st1) := freshName st "call_"
    let toolId ← pyGet block "id" (.str defName)
    let k ← pyKey index
    let st2 := { st1 with toolIds := jSet st1.toolIds k toolId }
    let nm ← pyGet block "name" .null
    let inp ← pyGet block "input" (.obj [])
    return (⟨.TOOL_USE_START, .obj [("id", toolId), ("name", nm), ("input", inp)], index, toolId⟩, st2)
  else if isStrEq btype "thinking" then do
    let (name, st1) := freshName st "thinking_"
    let k ← pyKey index
    let st2 := { st1 with thinkingIds := jSet st1.thinkingIds k (.str name),
                          activeThinking := jAdd st1.activeThinking k }
    return (⟨.THINKING, .obj [], index, .str name⟩, st2)
  else
    return (⟨.UNKNOWN, .obj raw, .null, .null⟩, st)

/-- `content_block_delta` handler; unmatched delta types fall through to the
final `UNKNOWN`-with-raw return. -/
def handleContentBlockDelta (st : ParserState) (raw : List (String × JVal)) :
    Except PyErr (StreamEvent × ParserState) := do
  let index := dGet raw "index" (.num 0)
  let delta := dGet raw "delta" (.obj [])
  let dtype ← pyGet delta "type" .null
  if isStrEq dtype "text_delta" then do
    let text ← pyGet delta "text" (.str "")
    let st1 := { st with accText := st.accText ++ [text] }
    let k ← pyKey index
    return (⟨.TEXT_DELTA, .obj [("delta", text)], index, jGetD st1.textIds k .null⟩, st1)
  else if isStrEq dtype "thinking_delta" then do
    let thinking ← pyGet delta "thinking" (.str "")
    let st1 := { st with accThinking := st.accThinking ++ [thinking] }
    let k ← pyKey index
    return (⟨.THINKING_DELTA, .obj [("delta", thinking)], index, jGetD st1.thinkingIds k .null⟩, st1)
  else if isStrEq dtype "input_json_delta" then do
    let pj ← pyGet delta "partial_json" (.str "")
    let k ← pyKey index
    return (⟨.TOOL_USE_DELTA, .obj [("partial_json", pj)], index, jGetD st.toolIds k .null⟩, st)
  else
    return (⟨.UNKNOWN, .obj raw, .null, .null⟩, st)

/-- `content_block_stop` handler. -/
def handleContentBlockStop (st : ParserState) (raw : List (String × JVal)) :
    Except PyErr (StreamEvent × ParserState) := do
  let index := dGet raw "index" (.num 0)
  let k ← pyKey index
  let st1 := { st with activeText := jDiscard st.activeText k,
                       activeThinking := jDiscard st.activeThinking k }
  if jHas st1.toolIds k then
    return (⟨.TOOL_USE_END, .obj [("id", jGetD st1.toolIds k .null)], index, .null⟩, st1)
  else
    return (⟨.UNKNOWN, .obj [], index, .null⟩, st1)

/-- The sdk-session-id capture loop of the `result` handler
(`for key in ("session_id", "sessionId"): …`). -/
def captureSdk (st : ParserState) (data : JVal) : Except PyErr ParserState := do
  let tryKey2 : Except PyErr ParserState := do
    let b2 ← pyIn "sessionId" data
    if b2 then do
      let v ← pySubscript data "sessionId"
      if truthy v then return { st with sdkSessionId := .str (pyStr v) } else return st
    else return st
  let b1 ← pyIn "session_id" data
  if b1 then do
    let v ← pySubscript data "session_id"
    if truthy v then return { st with sdkSessionId := .str (pyStr v) } else tryKey2
  else tryKey2

/-- The comprehension body of the `TodoWrite` re-interpretation:
`{"content": t.get("content", t.get("activeForm", "")), "status": t.get("status", "pending")}`. -/
def normalizeTodoItem (t : JVal) : Except PyErr JVal := do
  let af ← pyGet t "activeForm" (.str "")
  let c ← pyGet t "content" af
  let s ← pyGet t "status" (.str "pending")
  return .obj [("content", c), ("status", s)]

/-- `tool_use` handler of the simplified Claude dialect, including the
`TodoWrite` re-interpretation. -/
def handleToolUse (st : ParserState) (data : JVal) :
    Except PyErr (StreamEvent × ParserState) := do
  let fallThrough : Except PyErr (StreamEvent × ParserState) := do
    let idv ← pyGet data "id" .null
    return (⟨.TOOL_USE_START, data, .null, idv⟩, st)
  let nm ← pyGet data "name" .null
  if JVal.beq nm (.str "TodoWrite") then do
    let toolInput ← pyGet data "input" (.obj [])
    let todos := match toolInput with
      | .obj fs => dGet fs "todos" (.arr [])
      | _ => .arr []
    if truthy todos then do
      let ts ← pyIter todos
      let items ← ts.mapM normalizeTodoItem
      return (⟨.TODO_UPDATE, .obj [("items", .arr items)], .null, .null⟩, st)
    else fallThrough
  else fallThrough

/-- `EventParser._parse_claude` dispatch once the raw `type` is a string. -/
def parseClaudeTyped (st : ParserState) (raw : List (String × JVal)) (data : JVal) :
    String → Except PyErr (StreamEvent × ParserState)
  | "message_start" => handleMessageStart st raw
  | "content_block_start" => handleContentBlockStart st raw
  | "content_block_delta" => handleContentBlockDelta st raw
  | "content_block_stop" => handleContentBlockStop st raw
  | "message_delta" => do
      let usage := dGet raw "usage" (.obj [])
      let delta := dGet raw "delta" (.obj [])
      let sr ← pyGet delta "stop_reason" .null
      return (⟨.USAGE, .obj [("usage", usage), ("stop_reason", sr)], .null, .null⟩, st)
  | "message_stop" => return (⟨.DONE, .obj [], .null, .null⟩, st)
  | "ping" => return (⟨.PING, .obj [], .null, .null⟩, st)
  | "error" => do
      let err := dGet raw "error" (dGet raw "data" (.obj []))
      let m ← pyGet err "message" .null
      let msg := if truthy m then m else .str "An error occurred"
      return (⟨.ERROR, .obj [("message", msg)], .null, .null⟩, st)
  | "start" => return (⟨.START, data, .null, .null⟩, st)
  | "status" => do
      let m ← pyGet data "message" (.str "")
      return (⟨.STATUS, .obj [("message", m)], .null, .null⟩, st)
  | "text" => do
      let c ← pyGet data "content" (.str "")
      let st1 := { st with accText := st.accText ++ [c] }
      return (⟨.TEXT_DELTA, .obj [("delta", c), ("content", c)], .null, .null⟩, st1)
  | "thinking" => do
      let c ← pyGet data "content" (.str "")
      let ends ← pyEndsWith c "\n"
      let c1 := if ends then c else appendNl c
      let st1 := { st with accThinking := st.accThinking ++ [c1] }
      return (⟨.THINKING, .obj [("content", c1)], .null, .null⟩, st1)
  | "think" => do
      let t ← pyGet data "thought" (.str "")
      let ends ← pyEndsWith t "\n"
      let t1 := if ends then t else appendNl t
      let st1 := { st with accThinking := st.accThinking ++ [t1] }
      return (⟨.THINKING, .obj [("content", t1), ("source", .str "think_tool")], .null, .null⟩, st1)
  | "tool_use" => handleToolUse st data
  | "tool_result" => do
      let tid ← pyGet data "tool_use_id" .null
      return (⟨.TOOL_RESULT, data, .null, tid⟩, st)
  | "result" => do
      let st1 ← captureSdk st data
      return (⟨.RESULT, data, .null, .null⟩, st1)
  | "usage" => return (⟨.USAGE, .obj [("usage", data)], .null, .null⟩, st)
  | "usage_total" => return (⟨.USAGE, .obj [("usage", data), ("total", .bool true)], .null, .null⟩, st)
  | "todos" => do
      let items ← pyGet data "items" (.arr [])
      return (⟨.TODO_CREATE, .obj [("items", items)], .null, .null⟩, st)
  | "todo_create" => do
      let items ← pyGet data "items" (.arr [])
      return (⟨.TODO_CREATE, .obj [("items", items)], .null, .null⟩, st)
  | "todo_update" => do
      let items ← pyGet data "items" (.arr [])
      return (⟨.TODO_UPDATE, .obj [("items", items)], .null, .null⟩, st)
  | "todo_done" => do
      let item ← pyGet data "item" (.obj [])
      let idx ← pyGet data "index" (.num 0)
      return (⟨.TODO_DONE, .obj [("item", item), ("index", idx)], .null, .null⟩, st)
  | "subagent_spawn" => do
      let stype ← pyGet data "subagent_type" (.str "subagent")
      let desc ← pyGet data "description" (.str "")
      let msg := if truthy desc
        then "Spawning " ++ pyStr stype ++ ": " ++ pyStr desc
        else "Spawning " ++ pyStr stype ++ "..."
      return (⟨.STATUS, .obj [("message", .str msg)], .null, .null⟩, st)
  | "done" => return (⟨.DONE, .obj [], .null, .null⟩, st)
  | _ => return (⟨.UNKNOWN, .obj raw, .null, .null⟩, st)

/-- `EventParser._parse_claude`: a raw event whose `type` is not even a
string fails every equality test and falls through to `UNKNOWN`. -/
def parseClaude (st : ParserState) (raw : List (String × JVal)) :
    Except PyErr (StreamEvent × ParserState) :=
  let et := dGet raw "type" (.str "unknown")
  let data := dGet raw "data" (.obj [])
  match et with
  | .str s => parseClaudeTyped st raw data s
  | _ => .ok (⟨.UNKNOWN, .obj raw, .null, .null⟩, st)

/-- `EventParser._parse_deepagents` dispatch once the raw `type` is a string. -/
def parseDeepagentsTyped (st : ParserState) (raw : List (String × JVal)) (data : JVal) :
    String → Except PyErr (StreamEvent × ParserState)
  | "start" => return (⟨.START, data, .null, .null⟩, st)
  | "status" => do
      let m ← pyGet data "message" (.str "")
      return (⟨.STATUS, .obj [("message", m)], .null, .null⟩, st)
  | "text" => do
      let c ← pyGet data "content" (.str "")
      let st1 := { st with accText := st.accText ++ [c] }
      return (⟨.TEXT_DELTA, .obj [("delta", c)], .null, .null⟩, st1)
  | "thinking" => do
      let c ← pyGet data "content" (.str "")
      let ends ← pyEndsWith c "\n"
      let c1 := if ends then c else appendNl c
      let st1 := { st with accThinking := st.accThinking ++ [c1] }
      return (⟨.THINKING, .obj [("content", c1)], .null, .null⟩, st1)
  | "think" => do
      let t ← pyGet data "thought" (.str "")
      let ends ← pyEndsWith t "\n"
      let t1 := if ends then t else appendNl t
      let st1 := { st with accThinking := st.accThinking ++ [t1] }
      return (⟨.THINKING, .obj [("content", t1), ("source", .str "think_tool")], .null, .null⟩, st1)
  | "tool_use" => do
      let idv ← pyGet data "id" .null
      return (⟨.TOOL_USE_START, data, .null, idv⟩, st)
  | "tool_call_start" => do
      let idv ← pyGet data "id" (.str "")
      let nm ← pyGet data "name" (.str "")
      let id2 ← pyGet data "id" .null
      return (⟨.TOOL_USE_START, .obj [("id", idv), ("name", nm)], .null, id2⟩, st)
  | "search" => do
      let (defName, st1) := freshName st "search_"
      let idv ← pyGet data "id" (.str defName)
      let q ← pyGet data "query" (.str "")
      let topic ← pyGet data "topic" (.str "general")
      let id2 ← pyGet data "id" .null
      return (⟨.TOOL_USE_START,
        .obj [("id", idv), ("name", .str "internet_search"),
              ("input", .obj [("query", q), ("topic", topic)])], .null, id2⟩, st1)
  | "search_result" => do
      let cnt ← pyGet data "count" (.num 0)
      let res ← pyGet data "results" (.arr [])
      return (⟨.TOOL_RESULT, .obj [("count", cnt), ("results", res)], .null, .null⟩, st)
  | "tool_result" => do
      let tid ← pyGet data "tool_use_id" .null
      return (⟨.TOOL_RESULT, data, .null, tid⟩, st)
  | "todos" => do
      let items ← pyGet data "items" (.arr [])
      return (⟨.TODO_CREATE, .obj [("items", items)], .null, .null⟩, st)
  | "todo_create" => do
      let items ← pyGet data "items" (.arr [])
      return (⟨.TODO_CREATE, .obj [("items", items)], .null, .null⟩, st)
  | "todo_update" => do
      let items ← pyGet data "items" (.arr [])
      return (⟨.TODO_UPDATE, .obj [("items", items)], .null, .null⟩, st)
  | "todo_done" => do
      let item ← pyGet data "item" (.obj [])
      let idx ← pyGet data "index" (.num 0)
      return (⟨.TODO_DONE, .obj [("item", item), ("index", idx)], .null, .null⟩, st)
  | "subagent_start" => do
      let ag ← pyGet data "agent" (.str "unknown")
      let task ← pyGet data "task" (.str "")
      let content := "Starting " ++ pyStr ag ++ ": " ++ pyStr task ++ "\n"
      let st1 := { st with accThinking := st.accThinking ++ [.str content] }
      return (⟨.THINKING, .obj [("content", .str content), ("subagent", ag)], .null, .null⟩, st1)
  | "subagent_complete" => do
      let ag ← pyGet data "agent" (.str "unknown")
      let content := pyStr ag ++ " completed.\n"
      let st1 := { st with accThinking := st.accThinking ++ [.str content] }
      return (⟨.THINKING, .obj [("content", .str content), ("subagent", ag)], .null, .null⟩, st1)
  | "usage" => return (⟨.USAGE, .obj [("usage", data)], .null, .null⟩, st)
  | "usage_total" => return (⟨.USAGE, .obj [("usage", data), ("total", .bool true)], .null, .null⟩, st)
  | "result" => do
      let st1 ← captureSdk st data
      return (⟨.RESULT, data, .null, .null⟩, st1)
  | "error" => do
      let m ← pyGet data "message" (.str "An error occurred")
      return (⟨.ERROR, .obj [("message", m)], .null, .null⟩, st)
  | "done" => return (⟨.DONE, .obj [], .null, .null⟩, st)
  | _ => return (⟨.RAW, .obj raw, .null, .null⟩, st)

/-- `EventParser._parse_deepagents`. -/
def parseDeepagents (st : ParserState) (raw : List (String × JVal)) :
    Except PyErr (StreamEvent × ParserState) :=
  let et := dGet raw "type" (.str "unknown")
  let data := dGet raw "data" (.obj [])
  match et with
  | .str s => parseDeepagentsTyped st raw data s
  | _ => .ok (⟨.RAW, .obj raw, .null, .null⟩, st)

/-- `EventParser.parse`: framework dispatch. -/
def parse (framework : String) (st : ParserState) (raw : List (String × JVal)) :
    Except PyErr (StreamEvent × ParserState) :=
  if framework == "claude" then parseClaude st raw
  else if framework == "deepagents" || framework == "langchain" then parseDeepagents st raw
  else .ok (⟨.UNKNOWN, .obj raw, .null, .null⟩, st)

/-- `"".join(xs)` — raises `TypeError` when any element is not a string. -/
def pyJoin : List JVal → Except PyErr String
  | [] => .ok ""
  | .str s :: rest => do
      let r ← pyJoin rest
      return s ++ r
  | _ :: _ => .error .typeError

/-- `EventParser.get_text`. -/
def getText (st : ParserState) : Except PyErr String :=
  pyJoin st.accText

/-- `EventParser.get_thinking`. -/
def getThinking (st : ParserState) : Except PyErr String :=
  pyJoin st.accThinking

/-- `EventParser.get_sdk_session_id` (`None` is `JVal.null`). -/
def getSdkSessionId (st : ParserState) : JVal :=
  st.sdkSessionId

/-! ## SSE formatter (`src/api/core/event_formatters.py`) -/

/-- One AI SDK SSE frame.  Each constructor corresponds to one
`SSEFormatter.format_*` helper; the JSON/`data: …\n\n` serialization layer is
a bijective wrapper and is not re-modelled.  `doneF` is the literal
`data: [DONE]` line. -/
inductive Frame where
  | startF (messageId : String)
  | textStart (id : JVal)
  | textDelta (id delta : JVal)
  | textEnd (id : JVal)
  | reasoningStart (id : JVal) (variant : String)
  | reasoningDelta (id delta : JVal)
  | reasoningEnd (id : JVal)
  | toolInputStart (toolCallId toolName : JVal)
  | toolInputAvailable (toolCallId toolName input : JVal)
  | toolOutputAvailable (toolCallId output : JVal)
  | finishF
  | doneF
  | errorF (errorText : JVal)
  | dataUsage (payload : JVal)
deriving Repr

/-- `SSEFormatter.format_error`: empty text is replaced. -/
def errFrame (t : JVal) : Frame :=
  .errorF (if truthy t then t else .str "An error occurred")

/-- Is a value Python `None`? (`v is None` / `v is not None`). -/
def isNull : JVal → Bool
  | .null => true
  | _ => false

/-- Mutable state of one `NormalizedToAISDK` instance.  The five ids minted
in `__init__` are taken from the fresh-name counter in order
(`message_id`, `_simple_text_id`, `_processing_id`, `_thinking_id`,
`_todos_id`). -/
structure FmtState where
  messageId : String := "msg_0"
  accStatus : List String := []
  simpleTextId : String := "text_1"
  simpleTextStarted : Bool := false
  processingId : String := "processing_2"
  processingStarted : Bool := false
  thinkingId : String := "thinking_3"
  thinkingStarted : Bool := false
  todosId : String := "todos_4"
  todosStarted : Bool := false
  textIds : List (JVal × JVal) := []
  thinkingIds : List (JVal × JVal) := []
  activeText : List JVal := []
  activeThinking : List JVal := []
  ctr : Nat := 5
deriving Repr

/-- Fresh synthesized id inside the formatter (`f"call_{…}"`, `f"search_{…}"`). -/
def fmtFresh (st : FmtState) (pre : String) : String × FmtState :=
  (pre ++ toString st.ctr, { st with ctr := st.ctr + 1 })

/-- `NormalizedToAISDK.format`: one normalized event to a list of frames. -/
def fmtFormat (st : FmtState) (e : StreamEvent) : Except PyErr (FmtState × List Frame) :=
  match e.type with
  | .STATUS => do
      let message ← pyGet e.data "message" (.str "")
      if truthy message then
        let (st1, out1) :=
          if st.thinkingStarted
          then ({ st with thinkingStarted := false }, [Frame.reasoningEnd (.str st.thinkingId)])
          else (st, [])
        let (st2, out2) :=
          if !st1.processingStarted
          then ({ st1 with processingStarted := true },
                [Frame.reasoningStart (.str st1.processingId) "processing"])
          else (st1, [])
        let statusText := pyStr message ++ "\n"
        let st3 := { st2 with accStatus := st2.accStatus ++ [statusText] }
        return (st3, out1 ++ out2 ++ [Frame.reasoningDelta (.str st3.processingId) (.str statusText)])
      else return (st, [])
  | .TODO_CREATE => do
      let items ← pyGet e.data "items" (.arr [])
      if truthy items then
        let out1 := if st.todosStarted then [Frame.reasoningEnd (.str st.todosId)] else []
        return ({ st with todosStarted := false },
          out1 ++ [Frame.reasoningStart (.str st.todosId) "todos",
                   Frame.reasoningDelta (.str st.todosId) (.str (jsonDumps items)),
                   Frame.reasoningEnd (.str st.todosId)])
      else return (st, [])
  | .TODO_UPDATE => do
      let items ← pyGet e.data "items" (.arr [])
      if truthy items then
        let out1 := if st.todosStarted then [Frame.reasoningEnd (.str st.todosId)] else []
        return ({ st with todosStarted := false },
          out1 ++ [Frame.reasoningStart (.str st.todosId) "todos",
                   Frame.reasoningDelta (.str st.todosId) (.str (jsonDumps items)),
                   Frame.reasoningEnd (.str st.todosId)])
      else return (st, [])
  | .TODO_DONE => do
      let item ← pyGet e.data "item" (.obj [])
      let c0 ← pyGet item "content" (.str "Task")
      let content ← pySliceTo50 c0
      let (st1, out1) :=
        if st.thinkingStarted
        then ({ st with thinkingStarted := false }, [Frame.reasoningEnd (.str st.thinkingId)])
        else (st, [])
      let (st2, out2) :=
        if !st1.processingStarted
        then ({ st1 with processingStarted := true },
              [Frame.reasoningStart (.str st1.processingId) "processing"])
        else (st1, [])
      let statusText := "Completed: " ++ pyStr content ++ "...\n"
      return (st2, out1 ++ out2 ++ [Frame.reasoningDelta (.str st2.processingId) (.str statusText)])
  | .TEXT =>
      if !isNull e.index then do
        let tid ← if truthy e.id then pure e.id
          else do
            let k ← pyKey e.index
            pure (jGetD st.textIds k (.str ""))
        return (st, [Frame.textStart tid])
      else return (st, [])
  | .TEXT_DELTA => do
      let d1 ← pyGet e.data "delta" .null
      let delta ← if truthy d1 then pure d1 else pyGet e.data "content" (.str "")
      if truthy delta then do
        let (st1, out1) :=
          if st.processingStarted
          then ({ st with processingStarted := false }, [Frame.reasoningEnd (.str st.processingId)])
          else (st, [])
        let (st2, out2) :=
          if st1.thinkingStarted
          then ({ st1 with thinkingStarted := false }, [Frame.reasoningEnd (.str st1.thinkingId)])
          else (st1, [])
        let (st3, out3) :=
          if isNull e.index && !st2.simpleTextStarted
          then ({ st2 with simpleTextStarted := true }, [Frame.textStart (.str st2.simpleTextId)])
          else (st2, [])
        let textId ← if truthy e.id then pure e.id
          else do
            let idx := if truthy e.index then e.index else .num 0
            let k ← pyKey idx
            let v := jGetD st3.textIds k .null
            pure (if truthy v then v else .str st3.simpleTextId)
        return (st3, out1 ++ out2 ++ out3 ++ [Frame.textDelta textId delta])
      else return (st, [])
  | .THINKING => do
      let content ← pyGet e.data "content" (.str "")
      if truthy content then do
        let (st1, out1) :=
          if st.processingStarted
          then ({ st with processingStarted := false }, [Frame.reasoningEnd (.str st.processingId)])
          else (st, [])
        if isNull e.index then
          let (st2, out2) :=
            if !st1.thinkingStarted
            then ({ st1 with thinkingStarted := true },
                  [Frame.reasoningStart (.str st1.thinkingId) "thinking"])
            else (st1, [])
          return (st2, out1 ++ out2 ++ [Frame.reasoningDelta (.str st2.thinkingId) content])
        else
          return (st1, out1 ++ [Frame.reasoningStart (if truthy e.id then e.id else .str "") "thinking"])
      else return (st, [])
  | .THINKING_DELTA => do
      let d ← pyGet e.data "delta" .null
      if truthy d then do
        let dv ← pySubscript e.data "delta"
        return (st, [Frame.reasoningDelta (if truthy e.id then e.id else .str "") dv])
      else return (st, [])
  | .TOOL_USE_START => do
      let (defName, st1) := fmtFresh st "call_"
      let tid ← pyGet e.data "id" (.str defName)
      let nm ← pyGet e.data "name" (.str "unknown")
      let inp ← pyGet e.data "input" (.obj [])
      return (st1, [Frame.toolInputStart tid nm] ++
        (if truthy inp then [Frame.toolInputAvailable tid nm inp] else []))
  | .TOOL_RESULT => do
      let t1 ← pyGet e.data "tool_use_id" e.id
      let (tid, st1) ← if truthy t1 then pure (t1, st)
        else do
          let hasRes ← pyIn "results" e.data
          if hasRes then
            let (n, st') := fmtFresh st "search_"
            pure (JVal.str n, st')
          else pure (JVal.null, st)
      let hasRes ← pyIn "results" e.data
      let output ← if hasRes then do
          let cnt ← pyGet e.data "count" (.num 0)
          let res ← pyGet e.data "results" (.arr [])
          pure (JVal.obj [("count", cnt), ("results", res)])
        else pure e.data
      if truthy tid && truthy output then
        return (st1, [Frame.toolOutputAvailable tid output])
      else return (st1, [])
  | .USAGE => do
      let usage ← pyGet e.data "usage" (.obj [])
      if truthy usage then do
        let it ← pyGet usage "input_tokens" .null
        let ot ← pyGet usage "output_tokens" .null
        let rt ← pyGet usage "reasoning_tokens" .null
        let ct ← pyGet usage "cached_tokens" .null
        let sr ← pyGet e.data "stop_reason" .null
        let tot ← pyGet e.data "total" (.bool false)
        return (st, [Frame.dataUsage (.obj
          [("inputTokens", it), ("outputTokens", ot), ("reasoningTokens", rt),
           ("cachedTokens", ct), ("stopReason", sr), ("isTotal", tot)])])
      else return (st, [])
  | .RESULT => do
      let isErr ← pyGet e.data "is_error" .null
      let (st1, out1) :=
        if truthy isErr then
          let (sta, o) :=
            if st.simpleTextStarted
            then ({ st with simpleTextStarted := false }, [Frame.textEnd (.str st.simpleTextId)])
            else (st, [])
          (sta, o ++ [errFrame (.str "Agent execution failed")])
        else (st, [])
      let cost ← pyGet e.data "total_cost_usd" .null
      let dur ← pyGet e.data "duration_ms" .null
      if !isNull cost || truthy dur then do
        let nt ← pyGet e.data "num_turns" .null
        let sid ← pyGet e.data "session_id" .null
        let ie ← pyGet e.data "is_error" (.bool false)
        return (st1, out1 ++ [Frame.dataUsage (.obj
          [("totalCostUSD", cost), ("numTurns", nt), ("durationMs", dur),
           ("sdkSessionId", sid), ("isError", ie)])])
      else return (st1, out1)
  | .ERROR => do
      let (st1, out1) :=
        if st.simpleTextStarted
        then ({ st with simpleTextStarted := false }, [Frame.textEnd (.str st.simpleTextId)])
        else (st, [])
      let m ← pyGet e.data "message" .null
      let msg := if truthy m then m else .str "Unknown error"
      return (st1, out1 ++ [errFrame msg])
  | _ => return (st, [])

/-- `NormalizedToAISDK.start`. -/
def fmtStart (st : FmtState) : List Frame :=
  [Frame.startF st.messageId]

/-- `NormalizedToAISDK.end`: close still-open blocks in the fixed order,
then `finish` and `[DONE]`. -/
def fmtEnd (st : FmtState) : List Frame :=
  (if st.processingStarted then [Frame.reasoningEnd (.str st.processingId)] else []) ++
  (if st.todosStarted then [Frame.reasoningEnd (.str st.todosId)] else []) ++
  (if st.thinkingStarted then [Frame.reasoningEnd (.str st.thinkingId)] else []) ++
  (st.activeText.map (fun idx => Frame.textEnd (jGetD st.textIds idx (.str "")))) ++
  (st.activeThinking.map (fun idx => Frame.reasoningEnd (jGetD st.thinkingIds idx (.str "")))) ++
  (if st.simpleTextStarted then [Frame.textEnd (.str st.simpleTextId)] else []) ++
  [Frame.finishF, Frame.doneF]

/-! ## Orchestrator accumulators and deferred commit (`src/api/routes/chat.py`) -/

/-- The `stream_state["usage"]` counters.  `cost` stands for `cost_usd`
(floats carried as integers — see the header note). -/
structure UsageAcc where
  input : Int := 0
  output : Int := 0
  total : Int := 0
  cost : Int := 0
deriving Repr, DecidableEq

/-- A buffered `ChatEvent` row awaiting the deferred commit. -/
structure ChatEvent where
  eventType : String
  eventName : JVal := .null
  eventData : JVal := .obj []
deriving Repr

/-- The orchestrator's `stream_state` dictionary. -/
structure StreamState where
  accStatus : List JVal := []
  accTodos : JVal := .arr []
  sdk : JVal := .null
  usage : UsageAcc := {}
  eventsToSave : List ChatEvent := []
deriving Repr

/-- Right-biased dict update used by `{**todos[index], "status": "completed",
**item}` — later keys override, first-appearance order is kept. -/
def mergeField (fs : List (String × JVal)) (k : String) (v : JVal) : List (String × JVal) :=
  if (lookupField fs k).isSome
  then fs.map (fun p => if p.1 == k then (p.1, v) else p)
  else fs ++ [(k, v)]

/-- Fold `mergeField` over a list of overriding fields. -/
def mergeFields (fs : List (String × JVal)) (ov : List (String × JVal)) : List (String × JVal) :=
  ov.foldl (fun acc p => mergeField acc p.1 p.2) fs

/-- Index value in `0 <= index < len(todos)`: ints compare, bools coerce,
anything else raises `TypeError` when compared with an int. -/
def pyIdx : JVal → Except PyErr Int
  | .num n => .ok n
  | .bool b => .ok (if b then 1 else 0)
  | _ => .error .typeError

/-- `{**base}` unpacking — raises `TypeError` unless the value is a dict. -/
def mustObj : JVal → Except PyErr (List (String × JVal))
  | .obj fs => .ok fs
  | _ => .error .typeError

/-- The `_CHAT_EVENT_PERSIST` table mapping persistable normalized types to
`chat_events.event_type` strings. -/
def chatEventPersist : EventType → Option String
  | .TOOL_USE_START => some "tool_use"
  | .TOOL_RESULT => some "tool_result"
  | .RESULT => some "result"
  | .ERROR => some "error"
  | .TODO_CREATE => some "todo_create"
  | .TODO_UPDATE => some "todo_update"
  | .TODO_DONE => some "todo_done"
  | _ => none

/-- The sdk-session-id capture loop inside the orchestrator's `RESULT`
branch (same two keys as the parser's). -/
def captureSdkStream (ss : StreamState) (data : JVal) : Except PyErr StreamState := do
  let tryKey2 : Except PyErr StreamState := do
    let b2 ← pyIn "sessionId" data
    if b2 then do
      let v ← pySubscript data "sessionId"
      if truthy v then return { ss with sdk := .str (pyStr v) } else return ss
    else return ss
  let b1 ← pyIn "session_id" data
  if b1 then do
    let v ← pySubscript data "session_id"
    if truthy v then return { ss with sdk := .str (pyStr v) } else tryKey2
  else tryKey2

/-- The accumulator branches of `generate_stream`
(`src/api/routes/chat.py:284-342`). -/
def accumCollect (ss : StreamState) (e : StreamEvent) : Except PyErr StreamState :=
  match e.type with
    | .STATUS => do
        let m ← pyGet e.data "message" (.str "")
        if truthy m then pure { ss with accStatus := ss.accStatus ++ [m] } else pure ss
    | .TODO_CREATE => do
        let items ← pyGet e.data "items" (.arr [])
        if truthy items then do
          let n ← pyLen items
          pure { ss with accStatus := ss.accStatus ++ [.str ("Planning: " ++ toString n ++ " tasks")],
                         accTodos := items }
        else pure ss
    | .TODO_UPDATE => do
        let items ← pyGet e.data "items" (.arr [])
        if truthy items then do
          let n ← pyLen items
          pure { ss with accStatus := ss.accStatus ++ [.str ("Updated: " ++ toString n ++ " tasks")],
                         accTodos := items }
        else pure ss
    | .TODO_DONE => do
        let item ← pyGet e.data "item" (.obj [])
        let idxv ← pyGet e.data "index" (.num 0)
        let c0 ← pyGet item "content" (.str "Task")
        let content ← pySliceTo50 c0
        let ss' := { ss with accStatus :=
          ss.accStatus ++ [.str ("Completed: " ++ pyStr content ++ "...")] }
        let todos ← pyIter ss'.accTodos
        let n ← pyIdx idxv
        if 0 ≤ n ∧ n < todos.length then do
          let base ← mustObj (todos.getD n.toNat .null)
          let itemFs ← mustObj item
          let merged := JVal.obj (mergeFields (mergeField base "status" (.str "completed")) itemFs)
          pure { ss' with accTodos := .arr (todos.set n.toNat merged) }
        else pure ss'
    | .USAGE => do
        let usage ← pyGet e.data "usage" (.obj [])
        match usage with
        | .obj fs => do
            let inp ← pyInt (dGet fs "input_tokens" (.num 0))
            let outTok ← pyInt (dGet fs "output_tokens" (.num 0))
            let tot := dGet fs "total_tokens" .null
            let totFlag ← pyGet e.data "total" .null
            if truthy totFlag then
              (if isNull tot then pure (inp + outTok) else pyInt tot) >>= fun t =>
              pure { ss with usage := { ss.usage with input := inp, output := outTok, total := t } }
            else
              pure { ss with usage :=
                { ss.usage with input := ss.usage.input + inp,
                                output := ss.usage.output + outTok,
                                total := (ss.usage.input + inp) + (ss.usage.output + outTok) } }
        | _ => pure ss
    | .RESULT =>
        captureSdkStream ss e.data >>= fun ss' =>
        pyGet e.data "total_cost_usd" .null >>= fun cost =>
        (if !isNull cost then
            pyFloat cost >>= fun c =>
            pure { ss' with usage := { ss'.usage with cost := c } }
          else pure ss') >>= fun ss'' =>
        pyGet e.data "usage" .null >>= fun usage =>
        match usage with
        | .obj fs =>
            pyInt (dGet fs "input_tokens" (.num ss''.usage.input)) >>= fun inp =>
            pyInt (dGet fs "output_tokens" (.num ss''.usage.output)) >>= fun outTok =>
            pyInt (dGet fs "total_tokens" (.num (inp + outTok))) >>= fun t =>
            pure { ss'' with usage := { ss''.usage with input := inp, output := outTok, total := t } }
        | _ => pure ss''
    | _ => pure ss

/-- The `ChatEvent` persistence buffer of `generate_stream`
(`src/api/routes/chat.py:345-354`). -/
def accumPersist (ss1 : StreamState) (e : StreamEvent) : Except PyErr StreamState :=
  match chatEventPersist e.type with
  | some agentType =>
      (if e.type = .TOOL_USE_START then pyGet e.data "name" .null else pure .null) >>= fun nm =>
      pure { ss1 with eventsToSave :=
        ss1.eventsToSave ++ [⟨agentType, nm, e.data⟩] }
  | none => pure ss1

/-- One iteration of the collection logic in `generate_stream`: the
accumulator branches followed by the persistence buffer. -/
def accumStep (ss : StreamState) (e : StreamEvent) : Except PyErr StreamState := do
  let ss1 ← accumCollect ss e
  accumPersist ss1 e

/-- The main loop of `generate_stream` on the normal (no-exception) path:
parse, accumulate, format, stop after formatting a `DONE` event. -/
def runLoop (framework : String) (ps : ParserState) (ss : StreamState) (fs : FmtState) :
    List (List (String × JVal)) →
    Except PyErr (ParserState × StreamState × FmtState × List Frame)
  | [] => .ok (ps, ss, fs, [])
  | raw :: rest => do
      let (e, ps1) ← parse framework ps raw
      let ss1 ← accumStep ss e
      let (fs1, frames) ← fmtFormat fs e
      if e.type = .DONE then
        return (ps1, ss1, fs1, frames)
      else do
        let (ps2, ss2, fs2, more) ← runLoop framework ps1 ss1 fs1 rest
        return (ps2, ss2, fs2, frames ++ more)

/-- The complete SSE output of `generate_stream` on the normal path:
`formatter.start()`, then the loop frames, then `formatter.end()`. -/
def generateStream (framework : String) (raws : List (List (String × JVal))) :
    Except PyErr (ParserState × StreamState × FmtState × List Frame) := do
  let fs0 : FmtState := {}
  let (ps, ss, fs, frames) ← runLoop framework {} {} fs0 raws
  return (ps, ss, fs, fmtStart fs0 ++ frames ++ fmtEnd fs)

/-- One `chat_messages` row. -/
structure MessageRow where
  id : String
  chatId : String
  role : String
  content : String
  metadata : JVal := .null
deriving Repr

/-- One `chat_usage` row. -/
structure UsageRow where
  chatId : String
  inputTokens : Int
  outputTokens : Int
  totalTokens : Int
  costUsd : Int
deriving Repr, DecidableEq

/-- What the deferred commit (`save_assistant_message`) writes in one
transaction; exceptions inside the task are swallowed, so a `.error`
result commits nothing. -/
structure CommitResult where
  chatEvents : List ChatEvent
  messages : List MessageRow
  usageRows : List UsageRow
  finalSdkId : JVal
deriving Repr

/-- `save_assistant_message` (`src/api/routes/chat.py:190-253`): the
buffered events, at most one assistant `Message` row, at most one `Usage`
row, and the sdk-session-id to store.  Timestamps are not modelled. -/
def saveAssistantMessage (sessionId : String) (ps : ParserState) (ss : StreamState)
    (freshMid : String) : Except PyErr CommitResult := do
  let content ← getText ps
  let thinking ← getThinking ps
  let metadata :=
    (if !ss.accStatus.isEmpty then [("processing", JVal.arr ss.accStatus)] else []) ++
    (if thinking ≠ "" then [("thinking", JVal.str thinking)] else []) ++
    (if truthy ss.accTodos then [("todos", ss.accTodos)] else [])
  let messages :=
    if content ≠ "" || !ss.accStatus.isEmpty || thinking ≠ "" || truthy ss.accTodos then
      [{ id := freshMid, chatId := sessionId, role := "assistant",
         content := content,
         metadata := if metadata.isEmpty then .null else .obj metadata : MessageRow }]
    else []
  let usageRows :=
    if ss.usage.total > 0 || ss.usage.cost > 0 then
      [{ chatId := sessionId, inputTokens := ss.usage.input,
         outputTokens := ss.usage.output, totalTokens := ss.usage.total,
         costUsd := ss.usage.cost : UsageRow }]
    else []
  let finalSdkId := if truthy ss.sdk then ss.sdk else getSdkSessionId ps
  return { chatEvents := ss.eventsToSave, messages := messages,
           usageRows := usageRows, finalSdkId := finalSdkId }

/-! ## Chat endpoint: session resolution and pre-stream ordering
(`src/api/routes/chat.py`, `src/api/core/agents.py`) -/

/-- One `chat_sessions` row. -/
structure ChatSession where
  id : String
  title : String
  agentId : String
  agentName : String
  sdkSessionId : Option String := none
deriving Repr, DecidableEq

/-- The database fragment the chat endpoint touches. -/
structure Db where
  sessions : List ChatSession := []
  messages : List MessageRow := []
deriving Repr

/-- `select(ChatSession).where(ChatSession.id == sid)` + `scalar_one_or_none`. -/
def findSession (db : Db) (sid : String) : Option ChatSession :=
  db.sessions.find? (fun s => s.id == sid)

/-- The request body of `POST /chat` (`ChatRequest` schema). -/
structure ChatRequest where
  prompt : String
  sessionId : Option String := none
  agentId : Option String := none
deriving Repr

/-- Loaded agent descriptor (the fields the chat endpoint reads). -/
structure AgentConfig where
  id : String
  name : String
  framework : String := "claude"
  image : JVal := .null
  envVars : List String := []
deriving Repr

/-- `ALLOWED_ENV_VARS` whitelist from `src/api/core/agents.py`. -/
def ALLOWED_ENV_VARS : List String :=
  ["ANTHROPIC_API_KEY", "OPENAI_API_KEY", "GOOGLE_API_KEY", "GEMINI_API_KEY",
   "MISTRAL_API_KEY", "COHERE_API_KEY", "HUGGINGFACE_API_KEY", "GROQ_API_KEY",
   "TAVILY_API_KEY"]

/-- `get_agent_env_vars`: declared names filtered by the whitelist and by a
truthy value in settings. -/
def getAgentEnvVars (cfg : AgentConfig) (settings : String → Option String) :
    List (String × String) :=
  cfg.envVars.foldl (fun env varName =>
    if !ALLOWED_ENV_VARS.contains varName then env
    else match settings varName with
      | some value => if value ≠ "" then env ++ [(varName, value)] else env
      | none => env) []

/-- Python truthiness of an `Optional[str]` (`if request.session_id:`). -/
def optTruthy : Option String → Bool
  | none => false
  | some s => s ≠ ""

/-- `prompt[:50] + "..." if len(prompt) > 50 else prompt`. -/
def truncTitle (prompt : String) : String :=
  if prompt.length > 50 then String.mk (prompt.toList.take 50) ++ "..." else prompt

/-- Replace a session row in place (committing an ORM attribute update). -/
def replaceSession (db : Db) (s : ChatSession) : Db :=
  { db with sessions := db.sessions.map (fun t => if t.id == s.id then s else t) }

/-- `get_or_create_session` (`src/api/routes/chat.py:34-70`).  `freshSid`
stands for `str(uuid.uuid4())`. -/
def getOrCreateSession (db : Db) (sessionId : Option String)
    (agentId agentName prompt freshSid : String) : Db × ChatSession × Bool :=
  let created :=
    let newId := match sessionId with
      | some sid => if sid ≠ "" then sid else freshSid
      | none => freshSid
    let row : ChatSession :=
      { id := newId, title := truncTitle prompt, agentId := agentId, agentName := agentName }
    ({ db with sessions := db.sessions ++ [row] }, row, true)
  if optTruthy sessionId then
    match findSession db (sessionId.getD "") with
    | some s =>
        if s.title == "New Chat" then
          let s' := { s with title := truncTitle prompt }
          (replaceSession db s', s', false)
        else (db, s, false)
    | none => created
  else created

/-- Order-relevant effects of the chat endpoint. -/
inductive Step where
  | savedUserMessage
  | resolvedEnv
  | startedStream
deriving Repr, DecidableEq

/-- `a` occurs before any occurrence of `b` in the trace (vacuously true
when `b` never occurs). -/
def stepPrecedes (a b : Step) : List Step → Bool
  | [] => true
  | x :: xs => if x == b then false else if x == a then true else stepPrecedes a b xs

/-- Result of the chat endpoint before/instead of streaming. -/
inductive ChatOutcome where
  | httpError (code : Nat) (detail : String)
  | streaming (sessionId : String) (agentId : String) (isNew : Bool)
      (env : List (String × String))
deriving Repr

/-- The agent-resolution block of `chat` (`src/api/routes/chat.py:79-109`):
which agent id acts, and whether the session is new. -/
def resolveAgent (req : ChatRequest) (db : Db) : Except (Nat × String) (String × Bool) :=
  let newSession : Except (Nat × String) (String × Bool) :=
    if optTruthy req.agentId then .ok (req.agentId.getD "", true)
    else .error (400, "agent_id is required when creating a new session")
  if optTruthy req.sessionId then
    match findSession db (req.sessionId.getD "") with
    | some s => .ok (s.agentId, false)
    | none => newSession
  else newSession

/-- The `chat` endpoint up to the `StreamingResponse` hand-off
(`src/api/routes/chat.py:72-188`): agent resolution, config load, image
check, session get-or-create, synchronous user-message commit, env-var
resolution.  `freshSid`/`freshMid` stand for the two generated UUIDs. -/
def chat (req : ChatRequest) (db : Db) (agents : String → Option AgentConfig)
    (settings : String → Option String) (freshSid freshMid : String) :
    Db × List Step × ChatOutcome :=
  match resolveAgent req db with
  | .error (code, detail) => (db, [], .httpError code detail)
  | .ok (agentId, isNew) =>
    match agents agentId with
    | none => (db, [], .httpError 404 ("Agent \x27" ++ agentId ++ "\x27 not found"))
    | some cfg =>
      if !truthy cfg.image then
        (db, [], .httpError 400 ("Agent \x27" ++ agentId ++ "\x27 has no image configured"))
      else
        let (db1, session, _) := getOrCreateSession db req.sessionId agentId cfg.name req.prompt freshSid
        let userMsg : MessageRow :=
          { id := freshMid, chatId := session.id, role := "user", content := req.prompt }
        let db2 := { db1 with messages := db1.messages ++ [userMsg] }
        let env := getAgentEnvVars cfg settings
        if env.isEmpty then
          (db2, [.savedUserMessage, .resolvedEnv], .httpError 500 "Service temporarily unavailable")
        else
          (db2, [.savedUserMessage, .resolvedEnv, .startedStream],
           .streaming session.id agentId isNew env)

/-! ## Sandbox runners (`src/api/core/sandbox/subprocess.py`, `modal.py`) -/

/-- Raw wire unit emitted by a worker (`AgentEvent` dataclass). -/
structure AgentEvent where
  type : JVal
  data : JVal
deriving Repr

/-- One non-empty line of worker stdout: either it JSON-decodes to an
object, or it is treated as plain text.  (A line decoding to a non-object
JSON value aborts the reader with a synthesized error event; no claim
exercises that path.) -/
inductive WorkerLine where
  | json (fields : List (String × JVal))
  | text (s : String)
deriving Repr

/-- The stdout reader (`_read_process_stdout_async` /
`_read_process_stdout_sync`): JSON object lines become events, other lines
become `raw` events. -/
def readerEvents (ls : List WorkerLine) : List AgentEvent :=
  ls.map (fun l => match l with
    | .json fs => ⟨dGet fs "type" (.str "unknown"), dGet fs "data" (.obj [])⟩
    | .text s => ⟨.str "raw", .obj [("content", .str s)]⟩)

/-- `SubprocessClient.run_agent` as a function of the worker's behaviour:
its decoded stdout lines, its exit code and its drained stderr.
Cancellation (client disconnect) is out of scope of the model. -/
def subprocessRunAgent (agentFound pathExists spawnOk : Bool)
    (agentId agentPath : String) (ls : List WorkerLine)
    (returncode : Int) (stderrLines : List String) : List AgentEvent :=
  if !agentFound then
    [⟨.str "error", .obj [("message", .str ("Agent \x27" ++ agentId ++ "\x27 not found"))]⟩]
  else if !pathExists then
    [⟨.str "error", .obj [("message", .str ("Agent path not found: " ++ agentPath))]⟩]
  else
    [⟨.str "status", .obj [("message", .str "Starting agent locally...")]⟩] ++
    if !spawnOk then
      [⟨.str "error", .obj [("message",
        .str "Could not execute agent command: [\x27uv\x27, \x27run\x27, \x27python\x27, \x27run_agent.py\x27]")]⟩]
    else
      readerEvents ls ++
      (if returncode ≠ 0 then
        let stderrText := if stderrLines.isEmpty then ""
          else (String.intercalate "\n" stderrLines).trim
        [⟨.str "error", .obj [("message",
            .str ("Agent exited with code " ++ toString returncode ++
              (if stderrText ≠ "" then ": " ++ stderrText else ""))),
          ("details", .str stderrText)]⟩]
      else [])

/-- Is an event's type `done` or `error` (the modal loop's stop test)? -/
def isTerminalType (e : AgentEvent) : Bool :=
  isStrEq e.type "done" || isStrEq e.type "error"

/-- Consume events, keeping everything up to and including the first
`done`/`error` (the modal loop yields the terminal event, then breaks). -/
def takeThroughTerminal : List AgentEvent → List AgentEvent
  | [] => []
  | e :: es => if isTerminalType e then [e] else e :: takeThroughTerminal es

/-- The modal reader thread output: decoded stdout lines, then — only on a
non-zero exit code — a synthesized `exit` event, then the sentinel. -/
def modalReaderEvents (ls : List WorkerLine) (returncode : Int) : List AgentEvent :=
  readerEvents ls ++
  (if returncode ≠ 0 then [⟨.str "exit", .obj [("returncode", .num returncode)]⟩] else [])

/-- Substring test (`needle in haystack` on Python strings). -/
def strContains (haystack needle : String) : Bool :=
  (haystack.splitOn needle).length > 1

/-- The modal error classifier (substring inspection of the provider's
error text). -/
def formatModalError (m : String) : String :=
  if strContains m "Image build" then
    "Failed to build agent image. Please check agent configuration."
  else if strContains m "Token missing" || strContains m "authenticate" then
    "Modal authentication failed. Please check your credentials."
  else if strContains m.toLower "not found" then
    "Agent image not found. Please check the image URL."
  else "Agent execution failed: " ++ m

/-- `ModalClient.run_agent` as a function of the worker's behaviour.
`setupOk = false` models an exception raised while creating the sandbox or
starting the stream, with `errorMsg` the provider's error text. -/
def modalRunAgent (setupOk : Bool) (errorMsg : String)
    (ls : List WorkerLine) (returncode : Int) : List AgentEvent :=
  if setupOk then
    [⟨.str "status", .obj [("message", .str "Creating sandbox...")]⟩,
     ⟨.str "status", .obj [("message", .str "Wrote prompt.txt and history.txt to sandbox")]⟩,
     ⟨.str "status", .obj [("message", .str "Starting agent...")]⟩] ++
    takeThroughTerminal (modalReaderEvents ls returncode)
  else
    [⟨.str "status", .obj [("message", .str "Creating sandbox...")]⟩,
     ⟨.str "error", .obj [("message", .str (formatModalError errorMsg)),
                          ("details", .str errorMsg)]⟩]

/-! ## Definitions used by the claim theorems -/

/-- Frame classifier: is this a `text-start` frame? -/
def Frame.isTextStart : Frame → Bool
  | .textStart _ => true
  | _ => false

/-- Frame classifier: is this a `text-end` frame? -/
def Frame.isTextEnd : Frame → Bool
  | .textEnd _ => true
  | _ => false

/-- Frame classifier: is this a `tool-input-start` frame? -/
def Frame.isToolInputStart : Frame → Bool
  | .toolInputStart _ _ => true
  | _ => false

/-- The Claude-streaming input of C1: a `content_block_start` opening an
indexed text block, then `message_stop`. -/
def c1Raws : List (List (String × JVal)) :=
  [[("type", JVal.str "content_block_start"), ("index", JVal.num 0),
    ("content_block", JVal.obj [("type", JVal.str "text")])],
   [("type", JVal.str "message_stop")]]

/-- The SSE frames the formatter emits for `c1Raws`. -/
def c1Frames : List Frame :=
  [Frame.startF "msg_0", Frame.textStart (JVal.str "text_0"), Frame.finishF, Frame.doneF]

/-- Witness data for C4/C5: a request carrying only an agent id. -/
def c4Req : ChatRequest := { prompt := "Hi", agentId := some "A" }

/-- Witness data: one configured agent. -/
def c4Cfg : AgentConfig := { id := "A", name := "Agent A", image := .str "registry/img" }

/-- Witness data: the agent registry. -/
def c4Agents : String → Option AgentConfig := fun a => if a = "A" then some c4Cfg else none

/-- Witness data: settings with no env values (forces the 500 path). -/
def c4Settings : String → Option String := fun _ => none

/-- Witness data for C5: an existing session storing agent `"A"`. -/
def c5Session : ChatSession := { id := "S", title := "t", agentId := "A", agentName := "Agent A" }

/-- Witness data: a database holding that session. -/
def c5Db : Db := { sessions := [c5Session] }

/-- Does a normalized event make the orchestrator overwrite `total_tokens`
with an agent-supplied value?  Two cases: a `USAGE` event flagged
`total` (from a raw `usage_total`) whose usage carries a non-`None`
`total_tokens`, and a `RESULT` event whose usage object contains a
`total_tokens` key. -/
def suppliesExplicitTotal (e : StreamEvent) : Bool :=
  match e.type, e.data with
  | .USAGE, .obj dfs =>
      truthy (dGet dfs "total" .null) &&
      (match dGet dfs "usage" (.obj []) with
       | .obj ufs => !(isNull (dGet ufs "total_tokens" .null))
       | _ => false)
  | .RESULT, .obj dfs =>
      (match dGet dfs "usage" .null with
       | .obj ufs => (lookupField ufs "total_tokens").isSome
       | _ => false)
  | _, _ => false

/-- Ghost variant of `runLoop` that additionally returns the list of
normalized events processed (used to state which events the orchestrator
saw); `runLoopTrace_sound` shows it projects to `runLoop`. -/
def runLoopTrace (framework : String) (ps : ParserState) (ss : StreamState) (fs : FmtState) :
    List (List (String × JVal)) →
    Except PyErr (ParserState × StreamState × FmtState × List Frame × List StreamEvent)
  | [] => .ok (ps, ss, fs, [], [])
  | raw :: rest => do
      let (e, ps1) ← parse framework ps raw
      let ss1 ← accumStep ss e
      let (fs1, frames) ← fmtFormat fs e
      if e.type = .DONE then
        return (ps1, ss1, fs1, frames, [e])
      else do
        let (ps2, ss2, fs2, more, evs) ← runLoopTrace framework ps1 ss1 fs1 rest
        return (ps2, ss2, fs2, frames ++ more, e :: evs)

/-! ## General helper lemmas -/

theorem exceptBind_ok {α β : Type} {x : Except PyErr α} {f : α → Except PyErr β} {b : β}
    (h : (x >>= f) = .ok b) : ∃ a, x = .ok a ∧ f a = .ok b := by
  cases x with
  | ok a => exact ⟨a, rfl, h⟩
  | error e => simp [Bind.bind, Except.bind] at h

theorem exceptPure_ok {α : Type} {a b : α} (h : (pure a : Except PyErr α) = .ok b) : a = b := by
  simpa [pure, Except.pure] using h

@[simp] theorem pyGet_obj (fs : List (String × JVal)) (k : String) (d : JVal) :
    pyGet (.obj fs) k d = .ok (dGet fs k d) := rfl

@[simp] theorem pyIter_arr (xs : List JVal) : pyIter (.arr xs) = .ok xs := rfl

@[simp] theorem truthy_arr (xs : List JVal) : truthy (.arr xs) = !xs.isEmpty := rfl

@[simp] theorem beq_str_str (a b : String) : JVal.beq (.str a) (.str b) = (a == b) := by
  simp [JVal.beq]

@[simp] theorem dGet_cons_self (fs : List (String × JVal)) (k : String) (v d : JVal) :
    dGet ((k, v) :: fs) k d = v := by
  simp [dGet, lookupField]

/-! ## C1 -/

/-- C1: REFUTED on the code (code bug).  The claim says every emitted
`text-start` frame has a matching `text-end` with the same block id before
`finish` and `[DONE]`, in particular for indexed TEXT blocks opened from
Claude-streaming `content_block_start` events.  Feeding exactly such a
stream (one indexed text block, then `message_stop`) through
`formatter.start()`/`format()`/`end()` emits one `text-start` and zero
`text-end` frames: `NormalizedToAISDK.format` never records indexed blocks
in `self._active_text`/`self._text_ids`, so `end()`'s closing loop runs
over an always-empty set. -/
theorem C1_indexed_text_start_has_no_matching_end :
    (generateStream "claude" c1Raws).map (fun r => r.2.2.2) = .ok c1Frames ∧
    (c1Frames.filter Frame.isTextStart).length = 1 ∧
    (c1Frames.filter Frame.isTextEnd).length = 0 :=
  ⟨rfl, rfl, rfl⟩

/-! ## C2 -/

/-- C2: REFUTED on the code (code bug).  The claim says `EventParser.parse`
never raises.  On the raw event
`{"type": "tool_use", "data": {"name": "TodoWrite", "input": {"todos": [1]}}}`
— a JSON object with string type and object data — the `TodoWrite`
re-interpretation iterates the todos and calls `.get` on the integer item,
raising `AttributeError` in Python; the embedding returns the
corresponding error. -/
theorem C2_parser_raises_on_malformed_todo_items :
    parse "claude" {}
      [("type", JVal.str "tool_use"),
       ("data", JVal.obj [("name", JVal.str "TodoWrite"),
                          ("input", JVal.obj [("todos", JVal.arr [JVal.num 1])])])] =
      .error PyErr.attributeError :=
  rfl

/-! ## C3 -/

/-- C3 counterexample: a stream that terminates normally (`start` then
`done`) with nothing accumulated leads the deferred commit to insert ZERO
assistant message rows, refuting "exactly one assistant message row
(possibly empty)". -/
theorem C3_counterexample_empty_stream_inserts_no_assistant_row :
    (((do
      let (ps, ss, _, _) ← generateStream "claude"
        [[("type", JVal.str "start")], [("type", JVal.str "done")]]
      saveAssistantMessage "s1" ps ss "m1" : Except PyErr CommitResult)).map
        (fun r => r.messages.length) = Except.ok 0) := rfl

/-- Helper for C3: the Python truthiness guard of the assistant-row insert,
as a propositional disjunction. -/
theorem saveCond_iff (content thinking : String) (ss : StreamState) :
    ((content ≠ "" || !ss.accStatus.isEmpty || thinking ≠ "" || truthy ss.accTodos) = true)
    ↔ (content ≠ "" ∨ ss.accStatus ≠ [] ∨ thinking ≠ "" ∨ truthy ss.accTodos = true) := by
  simp [List.isEmpty_eq_false]
  tauto

/-- C3 (amended): on normal termination the deferred commit inserts AT MOST
one assistant message row; exactly one iff the accumulated text, status
list, thinking text, or todo snapshot is non-empty — the row's content is
the accumulated text, which may be the empty string when only metadata
accumulators are non-empty; zero rows otherwise. -/
theorem C3_assistant_row_iff_accumulators_nonempty
    (sessionId freshMid : String) (ps : ParserState) (ss : StreamState)
    (content thinking : String) (r : CommitResult)
    (hc : getText ps = .ok content) (ht : getThinking ps = .ok thinking)
    (hsv : saveAssistantMessage sessionId ps ss freshMid = .ok r) :
    r.messages.length ≤ 1 ∧
    (r.messages.length = 1 ↔
      (content ≠ "" ∨ ss.accStatus ≠ [] ∨ thinking ≠ "" ∨ truthy ss.accTodos = true)) ∧
    ∀ m ∈ r.messages, m.role = "assistant" ∧ m.content = content ∧ m.chatId = sessionId := by
  simp only [saveAssistantMessage, hc, ht, Bind.bind, Except.bind, pure, Except.pure,
    Except.ok.injEq] at hsv
  subst hsv
  refine ⟨?_, ?_, ?_⟩
  · split <;> simp
  · split
    next hcond =>
      simp only [List.length_singleton, true_iff]
      exact (saveCond_iff content thinking ss).mp hcond
    next hcond =>
      simp only [List.length_nil]
      constructor
      · omega
      · intro h
        exact absurd ((saveCond_iff content thinking ss).mpr h) (by simpa using hcond)
  · intro m hm
    split at hm <;> simp at hm
    simp [hm]

/-- C3 witness: with accumulated text `"Hello"` and empty metadata
accumulators, exactly one assistant row is inserted. -/
theorem C3_witness :
    (1 : Nat) ≤ 1 ∧
    ((1 : Nat) = 1 ↔
      ("Hello" ≠ "" ∨ ([] : List JVal) ≠ [] ∨ "" ≠ "" ∨ truthy (JVal.arr []) = true)) :=
  ⟨(C3_assistant_row_iff_accumulators_nonempty "s" "m" { accText := [JVal.str "Hello"] } {}
      "Hello" "" _ rfl rfl rfl).1,
   (C3_assistant_row_iff_accumulators_nonempty "s" "m" { accText := [JVal.str "Hello"] } {}
      "Hello" "" _ rfl rfl rfl).2.1⟩

/-! ## C4 -/

/-- C4: For every request that passes agent lookup (config found, image
configured), the user message row (role `user`, content the prompt) is in
the database returned by the endpoint — for every outcome, including the
500 on missing env vars — and in the effect trace the user-message commit
strictly precedes env-var resolution and the streaming/sandbox hand-off. -/
theorem C4_user_message_committed_before_env_and_sandbox
    (req : ChatRequest) (db : Db) (agents : String → Option AgentConfig)
    (settings : String → Option String) (freshSid freshMid : String)
    (agentId : String) (isNew : Bool) (cfg : AgentConfig)
    (hres : resolveAgent req db = .ok (agentId, isNew))
    (hcfg : agents agentId = some cfg)
    (himg : truthy cfg.image = true) :
    (∃ m ∈ (chat req db agents settings freshSid freshMid).1.messages,
        m.role = "user" ∧ m.content = req.prompt) ∧
    stepPrecedes .savedUserMessage .resolvedEnv
      (chat req db agents settings freshSid freshMid).2.1 = true ∧
    stepPrecedes .savedUserMessage .startedStream
      (chat req db agents settings freshSid freshMid).2.1 = true := by
  rcases hgs : getOrCreateSession db req.sessionId agentId cfg.name req.prompt freshSid
    with ⟨db1, session, flag⟩
  have hchat : chat req db agents settings freshSid freshMid =
      (let db2 := { db1 with messages := db1.messages ++
          [{ id := freshMid, chatId := session.id, role := "user", content := req.prompt }] }
       let env := getAgentEnvVars cfg settings
       if env.isEmpty then
         (db2, [.savedUserMessage, .resolvedEnv], .httpError 500 "Service temporarily unavailable")
       else
         (db2, [.savedUserMessage, .resolvedEnv, .startedStream],
          .streaming session.id agentId isNew env)) := by
    simp only [chat, hres, hcfg, himg, Bool.not_true, Bool.false_eq_true, if_false, hgs]
  rw [hchat]
  by_cases henv : (getAgentEnvVars cfg settings).isEmpty <;>
    simp only [henv, if_true, if_false, Bool.false_eq_true] <;>
    refine ⟨⟨{ id := freshMid, chatId := session.id, role := "user", content := req.prompt },
      ?_, rfl, rfl⟩, rfl, rfl⟩ <;>
    simp

/-- C4 witness: even when env resolution fails (500 path), the user message
commit precedes env resolution and the stream start. -/
theorem C4_witness :
    stepPrecedes .savedUserMessage .resolvedEnv
      (chat c4Req {} c4Agents c4Settings "sid1" "mid1").2.1 = true ∧
    stepPrecedes .savedUserMessage .startedStream
      (chat c4Req {} c4Agents c4Settings "sid1" "mid1").2.1 = true :=
  ⟨(C4_user_message_committed_before_env_and_sandbox c4Req {} c4Agents c4Settings "sid1" "mid1"
      "A" true c4Cfg rfl rfl rfl).2.1,
   (C4_user_message_committed_before_env_and_sandbox c4Req {} c4Agents c4Settings "sid1" "mid1"
      "A" true c4Cfg rfl rfl rfl).2.2⟩

/-! ## C5 -/

/-- C5: (a) when the request's `session_id` names an existing session, the
stored `agent_id` of that session is used and the request's `agent_id` is
ignored (the resolution result does not mention it); (b) when the
`session_id` is absent, empty, or names no session, and the request lacks a
truthy `agent_id`, the endpoint returns HTTP 400 (`InvalidRequest`) with an
empty effect trace — no user message is saved and no agent runs. -/
theorem C5_session_agent_resolution :
    (∀ (req : ChatRequest) (db : Db) (sid : String) (s : ChatSession),
      req.sessionId = some sid → sid ≠ "" → findSession db sid = some s →
      resolveAgent req db = .ok (s.agentId, false))
    ∧
    (∀ (req : ChatRequest) (db : Db) (agents : String → Option AgentConfig)
        (settings : String → Option String) (freshSid freshMid : String),
      (∀ sid, req.sessionId = some sid → sid ≠ "" → findSession db sid = none) →
      optTruthy req.agentId = false →
      (chat req db agents settings freshSid freshMid).2.2 =
        .httpError 400 "agent_id is required when creating a new session" ∧
      (chat req db agents settings freshSid freshMid).2.1 = []) := by
  constructor
  · intro req db sid s hsid hne hfind
    simp [resolveAgent, hsid, optTruthy, hne, hfind]
  · intro req db agents settings freshSid freshMid hmiss hagent
    have hres : resolveAgent req db =
        .error (400, "agent_id is required when creating a new session") := by
      unfold resolveAgent
      cases hs : req.sessionId with
      | none =>
        simp only [hs]
        rw [show optTruthy none = false from rfl, hagent]
        simp
      | some sid =>
        simp only [hs]
        by_cases hne : sid = ""
        · rw [show optTruthy (some sid) = false by simp [optTruthy, hne], hagent]
          simp
        · rw [show optTruthy (some sid) = true by simp [optTruthy, hne]]
          simp [hmiss sid hs hne, hagent]
    simp [chat, hres]

/-- C5 witness: a request carrying `session_id = "S"` and a different
`agent_id = "B"` resolves to the stored agent `"A"`; a request with no
session and no agent id gets HTTP 400 with no effects. -/
theorem C5_witness :
    resolveAgent { prompt := "x", sessionId := some "S", agentId := some "B" } c5Db =
      .ok ("A", false) ∧
    (chat { prompt := "x" } {} c4Agents c4Settings "f1" "f2").2.2 =
      .httpError 400 "agent_id is required when creating a new session" ∧
    (chat { prompt := "x" } {} c4Agents c4Settings "f1" "f2").2.1 = [] :=
  ⟨C5_session_agent_resolution.1 { prompt := "x", sessionId := some "S", agentId := some "B" }
      c5Db "S" c5Session rfl (by decide) rfl,
   (C5_session_agent_resolution.2 { prompt := "x" } {} c4Agents c4Settings "f1" "f2"
      (fun sid h _ => nomatch h) rfl).1,
   (C5_session_agent_resolution.2 { prompt := "x" } {} c4Agents c4Settings "f1" "f2"
      (fun sid h _ => nomatch h) rfl).2⟩

/-! ## C6 -/

/-- C6 counterexample: a `tool_use` raw event with `name == "TodoWrite"`
whose `input.todos` is the EMPTY list is NOT re-interpreted: the parser
returns `TOOL_USE_START` and the formatter emits a `tool-input-start`
frame for it, refuting "never returns a TOOL_USE_START / no
tool-input-start frame" for this TodoWrite call. -/
theorem C6_counterexample_empty_todos_falls_through_to_tool_use :
    (parse "claude" {}
      [("type", JVal.str "tool_use"),
       ("data", JVal.obj [("name", JVal.str "TodoWrite"),
                          ("input", JVal.obj [("todos", JVal.arr [])])])]).map
        (fun r => r.1.type) = .ok EventType.TOOL_USE_START ∧
    ((do
        let (e, _) ← parse "claude" ({} : ParserState)
          [("type", JVal.str "tool_use"),
           ("data", JVal.obj [("name", JVal.str "TodoWrite"),
                              ("input", JVal.obj [("todos", JVal.arr [])])])]
        fmtFormat {} e : Except PyErr (FmtState × List Frame)).map (fun r => r.2) =
      .ok [Frame.toolInputStart (JVal.str "call_5") (JVal.str "TodoWrite"),
           Frame.toolInputAvailable (JVal.str "call_5") (JVal.str "TodoWrite")
             (JVal.obj [("todos", JVal.arr [])])]) ∧
    Frame.isToolInputStart (Frame.toolInputStart (JVal.str "call_5") (JVal.str "TodoWrite")) = true :=
  ⟨rfl, rfl, rfl⟩

/-- Helper for C6: `normalizeTodoItem` on a dict item. -/
theorem normalizeTodoItem_obj (tfs : List (String × JVal)) :
    normalizeTodoItem (.obj tfs) =
      .ok (.obj [("content", dGet tfs "content" (dGet tfs "activeForm" (.str ""))),
                 ("status", dGet tfs "status" (.str "pending"))]) := rfl

/-- Helper for C6: mapping `normalizeTodoItem` over a list of dict items
succeeds and yields `{content, status}` pairs. -/
theorem mapM_normalizeTodoItem (ts : List JVal) (h : ∀ t ∈ ts, ∃ tfs, t = .obj tfs) :
    ∃ items, ts.mapM normalizeTodoItem = .ok items ∧ items.length = ts.length ∧
      ∀ it ∈ items, ∃ c s, it = .obj [("content", c), ("status", s)] := by
  induction ts with
  | nil => exact ⟨[], rfl, by simp, by simp⟩
  | cons t rest ih =>
    obtain ⟨tfs, rfl⟩ := h t (by simp)
    obtain ⟨items, hitems, hlen, hshape⟩ := ih (fun t ht => h t (by simp [ht]))
    refine ⟨(JVal.obj [("content", dGet tfs "content" (dGet tfs "activeForm" (.str ""))),
        ("status", dGet tfs "status" (.str "pending"))]) :: items, ?_, by simp [hlen], ?_⟩
    · show (JVal.obj tfs :: rest).mapM normalizeTodoItem = _
      rw [List.mapM_cons, normalizeTodoItem_obj, hitems]
      rfl
    · intro it hit
      rcases List.mem_cons.mp hit with rfl | hit
      · exact ⟨_, _, rfl⟩
      · exact hshape it hit

/-- C6 (amended): whenever a raw `tool_use` event carries
`data.name == "TodoWrite"` and an object `input` whose `todos` is a
NON-EMPTY list of objects, the Claude-dialect parser re-interprets it as a
`TODO_UPDATE` event carrying the items normalized to `{content, status}`
pairs (not a `TOOL_USE_START`), and formatting that event produces only
reasoning frames — no `tool-input-start`.  If `todos` is missing, empty,
or the input is not an object, the event falls back to
`TOOL_USE_START` (see the counterexample). -/
theorem C6_nonempty_todos_reinterpreted_as_todo_update
    (st : ParserState) (raw : List (String × JVal))
    (fs inputFs : List (String × JVal)) (ts : List JVal) (fmtSt : FmtState)
    (htype : dGet raw "type" (.str "unknown") = .str "tool_use")
    (hdata : dGet raw "data" (.obj []) = .obj fs)
    (hname : dGet fs "name" .null = .str "TodoWrite")
    (hinput : dGet fs "input" (.obj []) = .obj inputFs)
    (htodos : dGet inputFs "todos" (.arr []) = .arr ts)
    (hne : ts ≠ [])
    (hobjs : ∀ t ∈ ts, ∃ tfs, t = .obj tfs) :
    ∃ items,
      parse "claude" st raw =
        .ok (⟨.TODO_UPDATE, .obj [("items", .arr items)], .null, .null⟩, st) ∧
      items.length = ts.length ∧
      (∀ it ∈ items, ∃ c s, it = .obj [("content", c), ("status", s)]) ∧
      ∃ fmtSt' frames,
        fmtFormat fmtSt ⟨.TODO_UPDATE, .obj [("items", .arr items)], .null, .null⟩ =
          .ok (fmtSt', frames) ∧
        frames ≠ [] ∧ ∀ f ∈ frames, f.isToolInputStart = false := by
  obtain ⟨items, hitems, hlen, hshape⟩ := mapM_normalizeTodoItem ts hobjs
  have hitemsNe : items ≠ [] := by
    intro hnil
    apply hne
    cases ts with
    | nil => rfl
    | cons a l => subst hnil; simp at hlen
  have hts' : ts.isEmpty = false := by simp [List.isEmpty_eq_false, hne]
  have hits' : items.isEmpty = false := by simp [List.isEmpty_eq_false, hitemsNe]
  refine ⟨items, ?_, hlen, hshape, ?_⟩
  · have h1 : parse "claude" st raw = parseClaude st raw := by simp [parse]
    rw [h1]
    unfold parseClaude
    rw [htype, hdata]
    show handleToolUse st (.obj fs) = _
    have hitems' : List.mapM.loop normalizeTodoItem ts [] = Except.ok items := hitems
    simp [handleToolUse, Bind.bind, Except.bind, pure, Except.pure, hname, hinput, htodos,
      hts', hitems, hitems']
  · by_cases hts : fmtSt.todosStarted
    · refine ⟨{ fmtSt with todosStarted := false },
        [Frame.reasoningEnd (.str fmtSt.todosId),
         Frame.reasoningStart (.str fmtSt.todosId) "todos",
         Frame.reasoningDelta (.str fmtSt.todosId) (.str (jsonDumps (.arr items))),
         Frame.reasoningEnd (.str fmtSt.todosId)], ?_, by simp, ?_⟩
      · simp [fmtFormat, Bind.bind, Except.bind, pure, Except.pure, hits', hts]
      · intro f hf
        simp only [List.mem_cons, List.not_mem_nil, or_false] at hf
        rcases hf with rfl | rfl | rfl | rfl <;> rfl
    · refine ⟨{ fmtSt with todosStarted := false },
        [Frame.reasoningStart (.str fmtSt.todosId) "todos",
         Frame.reasoningDelta (.str fmtSt.todosId) (.str (jsonDumps (.arr items))),
         Frame.reasoningEnd (.str fmtSt.todosId)], ?_, by simp, ?_⟩
      · simp [fmtFormat, Bind.bind, Except.bind, pure, Except.pure, hits', hts]
      · intro f hf
        simp only [List.mem_cons, List.not_mem_nil, or_false] at hf
        rcases hf with rfl | rfl | rfl <;> rfl

/-- C6 witness: the spec's S3 scenario — one pending todo item — is
re-interpreted as `TODO_UPDATE` and yields no `tool-input-start`. -/
theorem C6_witness :
    ∃ items,
      parse "claude" {}
        [("type", JVal.str "tool_use"),
         ("data", JVal.obj [("name", JVal.str "TodoWrite"),
            ("input", JVal.obj [("todos",
              JVal.arr [JVal.obj [("content", JVal.str "step1"),
                                  ("status", JVal.str "pending")]])])])] =
        .ok (⟨.TODO_UPDATE, .obj [("items", .arr items)], .null, .null⟩, {}) ∧
      items.length = [JVal.obj [("content", JVal.str "step1"),
        ("status", JVal.str "pending")]].length ∧
      (∀ it ∈ items, ∃ c s, it = .obj [("content", c), ("status", s)]) ∧
      ∃ fmtSt' frames,
        fmtFormat {} ⟨.TODO_UPDATE, .obj [("items", .arr items)], .null, .null⟩ =
          .ok (fmtSt', frames) ∧
        frames ≠ [] ∧ ∀ f ∈ frames, f.isToolInputStart = false :=
  C6_nonempty_todos_reinterpreted_as_todo_update {} _ _ _ _ {} rfl rfl rfl rfl rfl
    (by simp)
    (by intro t ht
        simp only [List.mem_singleton] at ht
        exact ⟨_, ht⟩)

/-! ## C7 -/

/-- C7 counterexample: a subprocess worker that exits cleanly (code 0)
without emitting `done` produces a stream whose only event is the startup
status — no terminal `done` or `error` event is ever yielded, refuting
"a terminal event is always produced". -/
theorem C7_counterexample_clean_exit_without_done_has_no_terminal_event :
    subprocessRunAgent true true true "claude-hello-world" "/app/agents/claude-hello-world" [] 0 [] =
      [⟨.str "status", .obj [("message", .str "Starting agent locally...")]⟩] ∧
    ([(⟨.str "status", .obj [("message", .str "Starting agent locally...")]⟩ : AgentEvent)].all
        (fun e => !isTerminalType e)) = true :=
  ⟨rfl, rfl⟩

/-- Helper for C7: the modal consume loop passes a terminal-free event list
through unchanged. -/
theorem takeThroughTerminal_of_no_terminal (l : List AgentEvent)
    (h : ∀ e ∈ l, isTerminalType e = false) : takeThroughTerminal l = l := by
  induction l with
  | nil => rfl
  | cons e es ih =>
    simp only [takeThroughTerminal, h e (by simp)]
    simp only [Bool.false_eq_true, if_false, List.cons.injEq, true_and]
    exact ih (fun x hx => h x (by simp [hx]))

/-- C7 (amended): a terminal event is guaranteed only on failure paths —
(a) the subprocess backend ends the stream with a synthesized `error` event
when the worker exits non-zero; (b) the modal backend ends with a
synthesized `exit` event (type `"exit"`, not `"error"`) on non-zero exit
when the worker emitted no `done`/`error`; (c) the modal backend yields a
trailing `error` event when sandbox setup fails.  A worker that exits 0
without emitting `done` ends the stream with no terminal event at all
(see the counterexample). -/
theorem C7_terminal_events_by_backend :
    (∀ (agentId agentPath : String) (ls : List WorkerLine) (rc : Int) (stderr : List String),
      rc ≠ 0 →
      ∃ msg details,
        (subprocessRunAgent true true true agentId agentPath ls rc stderr).getLast? =
          some ⟨.str "error", .obj [("message", .str msg), ("details", .str details)]⟩)
    ∧
    (∀ (errorMsg : String) (ls : List WorkerLine) (rc : Int),
      rc ≠ 0 →
      (∀ e ∈ readerEvents ls, isTerminalType e = false) →
      (modalRunAgent true errorMsg ls rc).getLast? =
        some ⟨.str "exit", .obj [("returncode", .num rc)]⟩)
    ∧
    (∀ (errorMsg : String) (ls : List WorkerLine) (rc : Int),
      (modalRunAgent false errorMsg ls rc).getLast? =
        some ⟨.str "error", .obj [("message", .str (formatModalError errorMsg)),
                                  ("details", .str errorMsg)]⟩) := by
  refine ⟨?_, ?_, ?_⟩
  · intro agentId agentPath ls rc stderr hrc
    refine ⟨"Agent exited with code " ++ toString rc ++
        (if (if stderr.isEmpty then "" else (String.intercalate "\n" stderr).trim) ≠ ""
         then ": " ++ (if stderr.isEmpty then "" else (String.intercalate "\n" stderr).trim)
         else ""),
      (if stderr.isEmpty then "" else (String.intercalate "\n" stderr).trim), ?_⟩
    show ([(⟨.str "status", .obj [("message", .str "Starting agent locally...")]⟩ : AgentEvent)] ++
      (readerEvents ls ++ (if rc ≠ 0 then _ else []))).getLast? = _
    rw [if_pos hrc, ← List.append_assoc]
    exact List.getLast?_concat _
  · intro errorMsg ls rc hrc hterm
    have hall : ∀ e ∈ modalReaderEvents ls rc, isTerminalType e = false := by
      intro e he
      simp only [modalReaderEvents, hrc, if_pos, List.mem_append] at he
      rcases he with he | he
      · exact hterm e he
      · simp only [if_pos hrc, List.mem_singleton] at he
        subst he
        rfl
    simp only [modalRunAgent, if_true]
    rw [takeThroughTerminal_of_no_terminal _ hall]
    simp only [modalReaderEvents, if_pos hrc]
    rw [← List.append_assoc]
    exact List.getLast?_concat _
  · intro errorMsg ls rc
    rfl

/-- C7 witness: concrete runs of the amended theorem — a worker crashing
with exit code 2 under the modal backend ends in an `exit` event; a modal
setup failure ends in a formatted `error` event; a subprocess worker
exiting 1 ends in an `error` event. -/
theorem C7_witness :
    (∃ msg details,
      (subprocessRunAgent true true true "a" "p" [] 1 ["boom"]).getLast? =
        some ⟨.str "error", .obj [("message", .str msg), ("details", .str details)]⟩) ∧
    (modalRunAgent true "" [] 2).getLast? =
      some ⟨.str "exit", .obj [("returncode", .num 2)]⟩ ∧
    (modalRunAgent false "image not found" [] 0).getLast? =
      some ⟨.str "error", .obj [("message", .str (formatModalError "image not found")),
        ("details", .str "image not found")]⟩ :=
  ⟨C7_terminal_events_by_backend.1 "a" "p" [] 1 ["boom"] (by decide),
   C7_terminal_events_by_backend.2.1 "" [] 2 (by decide)
     (by intro e he; simp [readerEvents] at he),
   C7_terminal_events_by_backend.2.2 "image not found" [] 0⟩

/-! ## C8 -/

/-- C8 counterexample: a stream containing NO `usage_total` event — only a
`result` event whose usage object carries `total_tokens: 5` — completes
normally and writes a `Usage` row with `total_tokens = 5` while
`input_tokens = output_tokens = 0`, so `total_tokens ≠ input + output`
although the claim's only allowed exception (a `usage_total` event) never
occurred. -/
theorem C8_counterexample_result_total_breaks_sum :
    (((do
      let (ps, ss, _, _) ← generateStream "claude"
        [[("type", JVal.str "result"),
          ("data", JVal.obj [("usage", JVal.obj [("total_tokens", JVal.num 5)])])],
         [("type", JVal.str "done")]]
      saveAssistantMessage "s1" ps ss "m1" : Except PyErr CommitResult)).map
      (fun r => r.usageRows) =
    .ok [{ chatId := "s1", inputTokens := 0, outputTokens := 0, totalTokens := 5, costUsd := 0 }]) ∧
    ([[("type", JVal.str "result"),
       ("data", JVal.obj [("usage", JVal.obj [("total_tokens", JVal.num 5)])])],
      [("type", JVal.str "done")]].map (fun raw => dGet raw "type" (.str "unknown"))) =
      [.str "result", .str "done"] ∧
    (5 : Int) ≠ 0 + 0 :=
  ⟨rfl, rfl, by decide⟩

/-- Helper for C8: the sdk-capture loop never touches the usage counters. -/
theorem captureSdkStream_usage (ss : StreamState) (d : JVal) (ss2 : StreamState)
    (h : captureSdkStream ss d = .ok ss2) : ss2.usage = ss.usage := by
  unfold captureSdkStream at h
  obtain ⟨b1, hb1, h⟩ := exceptBind_ok h
  cases b1 with
  | false =>
    simp only [Bool.false_eq_true, if_false] at h
    obtain ⟨b2, hb2, h⟩ := exceptBind_ok h
    cases b2 with
    | false =>
      simp only [Bool.false_eq_true, if_false] at h
      cases exceptPure_ok h
      rfl
    | true =>
      simp only [if_true] at h
      obtain ⟨v, hv, h⟩ := exceptBind_ok h
      split at h <;> (cases exceptPure_ok h; rfl)
  | true =>
    simp only [if_true] at h
    obtain ⟨v, hv, h⟩ := exceptBind_ok h
    split at h
    · cases exceptPure_ok h
      rfl
    · obtain ⟨b2, hb2, h⟩ := exceptBind_ok h
      cases b2 with
      | false =>
        simp only [Bool.false_eq_true, if_false] at h
        cases exceptPure_ok h
        rfl
      | true =>
        simp only [if_true] at h
        obtain ⟨v2, hv2, h⟩ := exceptBind_ok h
        split at h <;> (cases exceptPure_ok h; rfl)

/-- Helper for C8: the persistence buffer never touches the usage counters. -/
theorem accumPersist_usage (ss1 : StreamState) (e : StreamEvent) (ss2 : StreamState)
    (h : accumPersist ss1 e = .ok ss2) : ss2.usage = ss1.usage := by
  unfold accumPersist at h
  split at h
  · obtain ⟨nm, hnm, h⟩ := exceptBind_ok h
    cases exceptPure_ok h
    rfl
  · cases exceptPure_ok h
    rfl

/-- Helper for C8: one accumulator step preserves
`total = input + output` whenever the event does not supply an explicit
total. -/
theorem accumStep_inv (ss : StreamState) (e : StreamEvent) (ss1 : StreamState)
    (h : accumStep ss e = .ok ss1)
    (hx : suppliesExplicitTotal e = false)
    (hinv : ss.usage.total = ss.usage.input + ss.usage.output) :
    ss1.usage.total = ss1.usage.input + ss1.usage.output := by
  obtain ⟨ty, data, idx, idv⟩ := e
  unfold accumStep at h
  obtain ⟨ssA, hA, hP⟩ := exceptBind_ok h
  rw [accumPersist_usage ssA _ ss1 hP]
  clear hP h
  unfold accumCollect at hA
  cases ty
  case START => cases exceptPure_ok hA; exact hinv
  case DONE => cases exceptPure_ok hA; exact hinv
  case ERROR => cases exceptPure_ok hA; exact hinv
  case PING => cases exceptPure_ok hA; exact hinv
  case TEXT => cases exceptPure_ok hA; exact hinv
  case TEXT_DELTA => cases exceptPure_ok hA; exact hinv
  case THINKING => cases exceptPure_ok hA; exact hinv
  case THINKING_DELTA => cases exceptPure_ok hA; exact hinv
  case TOOL_USE_START => cases exceptPure_ok hA; exact hinv
  case TOOL_USE_DELTA => cases exceptPure_ok hA; exact hinv
  case TOOL_USE_END => cases exceptPure_ok hA; exact hinv
  case TOOL_RESULT => cases exceptPure_ok hA; exact hinv
  case METADATA => cases exceptPure_ok hA; exact hinv
  case RAW => cases exceptPure_ok hA; exact hinv
  case UNKNOWN => cases exceptPure_ok hA; exact hinv
  case STATUS =>
    obtain ⟨m, hm, hA⟩ := exceptBind_ok hA
    split at hA <;> (cases exceptPure_ok hA; exact hinv)
  case TODO_CREATE =>
    obtain ⟨items, hi, hA⟩ := exceptBind_ok hA
    split at hA
    · obtain ⟨n, hn, hA⟩ := exceptBind_ok hA
      cases exceptPure_ok hA
      exact hinv
    · cases exceptPure_ok hA; exact hinv
  case TODO_UPDATE =>
    obtain ⟨items, hi, hA⟩ := exceptBind_ok hA
    split at hA
    · obtain ⟨n, hn, hA⟩ := exceptBind_ok hA
      cases exceptPure_ok hA
      exact hinv
    · cases exceptPure_ok hA; exact hinv
  case TODO_DONE =>
    obtain ⟨item, h1, hA⟩ := exceptBind_ok hA
    obtain ⟨idxv, h2, hA⟩ := exceptBind_ok hA
    obtain ⟨c0, h3, hA⟩ := exceptBind_ok hA
    obtain ⟨content, h4, hA⟩ := exceptBind_ok hA
    obtain ⟨todos, h5, hA⟩ := exceptBind_ok hA
    obtain ⟨n, h6, hA⟩ := exceptBind_ok hA
    split at hA
    · obtain ⟨base, h7, hA⟩ := exceptBind_ok hA
      obtain ⟨itemFs, h8, hA⟩ := exceptBind_ok hA
      cases exceptPure_ok hA
      exact hinv
    · cases exceptPure_ok hA; exact hinv
  case USAGE =>
    cases data with
    | obj dfs =>
      obtain ⟨usage, hu, hA⟩ := exceptBind_ok hA
      rw [pyGet_obj, Except.ok.injEq] at hu
      subst hu
      split at hA
      case h_1 fs husage =>
        obtain ⟨inp, h1, hA⟩ := exceptBind_ok hA
        obtain ⟨outTok, h2, hA⟩ := exceptBind_ok hA
        obtain ⟨totFlag, h3, hA⟩ := exceptBind_ok hA
        rw [pyGet_obj, Except.ok.injEq] at h3
        subst h3
        split at hA
        case isTrue htf =>
          obtain ⟨t, ht, hA⟩ := exceptBind_ok hA
          have hnull : isNull (dGet fs "total_tokens" .null) = true := by
            simp only [suppliesExplicitTotal, htf, Bool.true_and, husage] at hx
            simpa using hx
          rw [if_pos hnull] at ht
          cases exceptPure_ok ht
          cases exceptPure_ok hA
          rfl
        case isFalse htf =>
          cases exceptPure_ok hA
          rfl
      case h_2 husage hne =>
        cases exceptPure_ok hA
        exact hinv
    | null => simp [Bind.bind, Except.bind, pyGet] at hA
    | bool b => simp [Bind.bind, Except.bind, pyGet] at hA
    | num n => simp [Bind.bind, Except.bind, pyGet] at hA
    | str s => simp [Bind.bind, Except.bind, pyGet] at hA
    | arr xs => simp [Bind.bind, Except.bind, pyGet] at hA
  case RESULT =>
    obtain ⟨ss', hcap, hA⟩ := exceptBind_ok hA
    have hc := captureSdkStream_usage ss data ss' hcap
    obtain ⟨cost, hcost, hA⟩ := exceptBind_ok hA
    cases data with
    | obj dfs =>
      rw [pyGet_obj, Except.ok.injEq] at hcost
      subst hcost
      obtain ⟨ss'', hmid, hA⟩ := exceptBind_ok hA
      have hfields : ss''.usage.total = ss.usage.total ∧ ss''.usage.input = ss.usage.input ∧
          ss''.usage.output = ss.usage.output := by
        split at hmid
        · obtain ⟨c, hcv, hmid⟩ := exceptBind_ok hmid
          cases exceptPure_ok hmid
          simp [hc]
        · cases exceptPure_ok hmid
          simp [hc]
      obtain ⟨usage2, hu2, hA⟩ := exceptBind_ok hA
      rw [pyGet_obj, Except.ok.injEq] at hu2
      subst hu2
      split at hA
      case h_1 fs husage =>
        obtain ⟨inp, h1, hA⟩ := exceptBind_ok hA
        obtain ⟨outTok, h2, hA⟩ := exceptBind_ok hA
        obtain ⟨t, ht, hA⟩ := exceptBind_ok hA
        have hnone : lookupField fs "total_tokens" = none := by
          simp only [suppliesExplicitTotal, husage] at hx
          simpa [Option.isSome_iff_exists] using hx
        have hdef : dGet fs "total_tokens" (.num (inp + outTok)) = .num (inp + outTok) := by
          simp [dGet, hnone]
        rw [hdef] at ht
        have ht' : t = inp + outTok := by
          simpa [pyInt] using ht.symm
        cases exceptPure_ok hA
        simp [ht']
      case h_2 husage hne =>
        cases exceptPure_ok hA
        rw [hfields.1, hfields.2.1, hfields.2.2]
        exact hinv
    | null => simp [Bind.bind, Except.bind, pyGet] at hcost
    | bool b => simp [Bind.bind, Except.bind, pyGet] at hcost
    | num n => simp [Bind.bind, Except.bind, pyGet] at hcost
    | str s => simp [Bind.bind, Except.bind, pyGet] at hcost
    | arr xs => simp [Bind.bind, Except.bind, pyGet] at hcost

/-- Helper for C8: the ghost loop projects to `runLoop`. -/
theorem runLoopTrace_sound (framework : String) (raws : List (List (String × JVal))) :
    ∀ (ps : ParserState) (ss : StreamState) (fs : FmtState)
      (ps' : ParserState) (ss' : StreamState) (fs' : FmtState)
      (frames : List Frame) (evs : List StreamEvent),
    runLoopTrace framework ps ss fs raws = .ok (ps', ss', fs', frames, evs) →
    runLoop framework ps ss fs raws = .ok (ps', ss', fs', frames) := by
  induction raws with
  | nil =>
    intro ps ss fs ps' ss' fs' frames evs h
    simp only [runLoopTrace, Except.ok.injEq, Prod.mk.injEq] at h
    obtain ⟨h1, h2, h3, h4, h5⟩ := h
    subst h1; subst h2; subst h3; subst h4
    rfl
  | cons raw rest ih =>
    intro ps ss fs ps' ss' fs' frames evs h
    simp only [runLoopTrace] at h
    obtain ⟨ep, hp, h⟩ := exceptBind_ok h
    obtain ⟨e, ps1⟩ := ep
    obtain ⟨ss1, hs, h⟩ := exceptBind_ok h
    obtain ⟨fp, hf, h⟩ := exceptBind_ok h
    obtain ⟨fs1, fr⟩ := fp
    replace hs : accumStep ss e = Except.ok ss1 := hs
    replace hf : fmtFormat fs e = Except.ok (fs1, fr) := hf
    simp only [runLoop]
    rw [hp]
    simp only [Bind.bind, Except.bind, hs, hf]
    split at h
    next hdone =>
      replace hdone : e.type = EventType.DONE := hdone
      have hq := exceptPure_ok h
      simp only [Prod.mk.injEq] at hq
      obtain ⟨h1, h2, h3, h4, h5⟩ := hq
      subst h1; subst h2; subst h3; subst h4
      rw [if_pos hdone]
      rfl
    next hdone =>
      replace hdone : ¬(e.type = EventType.DONE) := hdone
      obtain ⟨rp, hr, h⟩ := exceptBind_ok h
      obtain ⟨ps2, ss2, fs2, more, evs2⟩ := rp
      have hq := exceptPure_ok h
      simp only [Prod.mk.injEq] at hq
      obtain ⟨h1, h2, h3, h4, h5⟩ := hq
      subst h1; subst h2; subst h3; subst h4
      rw [if_neg hdone, ih ps1 ss1 fs1 ps2 ss2 fs2 more evs2 hr]
      rfl

/-- Helper for C8: over a whole stream, the invariant
`total = input + output` holds whenever no processed event supplied an
explicit total. -/
theorem runLoopTrace_inv (framework : String) (raws : List (List (String × JVal))) :
    ∀ (ps : ParserState) (ss : StreamState) (fs : FmtState)
      (ps' : ParserState) (ss' : StreamState) (fs' : FmtState)
      (frames : List Frame) (evs : List StreamEvent),
    runLoopTrace framework ps ss fs raws = .ok (ps', ss', fs', frames, evs) →
    (∀ e ∈ evs, suppliesExplicitTotal e = false) →
    ss.usage.total = ss.usage.input + ss.usage.output →
    ss'.usage.total = ss'.usage.input + ss'.usage.output := by
  induction raws with
  | nil =>
    intro ps ss fs ps' ss' fs' frames evs h hx hinv
    simp only [runLoopTrace, Except.ok.injEq, Prod.mk.injEq] at h
    obtain ⟨h1, h2, h3, h4, h5⟩ := h
    subst h2
    exact hinv
  | cons raw rest ih =>
    intro ps ss fs ps' ss' fs' frames evs h hx hinv
    simp only [runLoopTrace] at h
    obtain ⟨ep, hp, h⟩ := exceptBind_ok h
    obtain ⟨e, ps1⟩ := ep
    obtain ⟨ss1, hs, h⟩ := exceptBind_ok h
    obtain ⟨fp, hf, h⟩ := exceptBind_ok h
    obtain ⟨fs1, fr⟩ := fp
    replace hs : accumStep ss e = Except.ok ss1 := hs
    split at h
    next hdone =>
      have hq := exceptPure_ok h
      simp only [Prod.mk.injEq] at hq
      obtain ⟨h1, h2, h3, h4, h5⟩ := hq
      subst h2; subst h5
      exact accumStep_inv ss e ss1 hs (hx e (by simp)) hinv
    next hdone =>
      obtain ⟨rp, hr, h⟩ := exceptBind_ok h
      obtain ⟨ps2, ss2, fs2, more, evs2⟩ := rp
      have hq := exceptPure_ok h
      simp only [Prod.mk.injEq] at hq
      obtain ⟨h1, h2, h3, h4, h5⟩ := hq
      subst h2; subst h5
      have h1inv := accumStep_inv ss e ss1 hs (hx e (by simp)) hinv
      exact ih ps1 ss1 fs1 ps2 ss2 fs2 more evs2 hr (fun x hxm => hx x (by simp [hxm])) h1inv

/-- C8 (amended): for every stream the orchestrator runs to completion in
which no processed normalized event supplies an explicit total — neither a
`USAGE` event flagged `total` (raw `usage_total`) carrying `total_tokens`,
nor a `RESULT` event whose usage object carries `total_tokens` — the final
usage counters satisfy `total_tokens = input_tokens + output_tokens`, and
hence so does any `Usage` row written by the deferred commit. -/
theorem C8_total_equals_sum_without_explicit_total
    (framework : String) (raws : List (List (String × JVal)))
    (ps' : ParserState) (ss' : StreamState) (fs' : FmtState)
    (frames : List Frame) (evs : List StreamEvent)
    (h : runLoopTrace framework {} {} {} raws = .ok (ps', ss', fs', frames, evs))
    (hx : ∀ e ∈ evs, suppliesExplicitTotal e = false) :
    runLoop framework {} {} {} raws = .ok (ps', ss', fs', frames) ∧
    ss'.usage.total = ss'.usage.input + ss'.usage.output ∧
    ∀ (sid mid : String) (r : CommitResult),
      saveAssistantMessage sid ps' ss' mid = .ok r →
      ∀ u ∈ r.usageRows, u.totalTokens = u.inputTokens + u.outputTokens := by
  have hinv := runLoopTrace_inv framework raws {} {} {} ps' ss' fs' frames evs h hx rfl
  refine ⟨runLoopTrace_sound framework raws {} {} {} ps' ss' fs' frames evs h, hinv, ?_⟩
  intro sid mid r hsv
  obtain ⟨content, hc, hsv⟩ := exceptBind_ok hsv
  obtain ⟨thinking, ht, hsv⟩ := exceptBind_ok hsv
  cases exceptPure_ok hsv
  intro u hu
  dsimp only at hu
  split at hu
  · simp only [List.mem_singleton] at hu
    rw [hu]
    exact hinv
  · simp at hu

/-- C8 witness: a stream with one additive `usage` event (2 in / 3 out) and
no explicit total reaches `total = 5 = 2 + 3`. -/
theorem C8_witness :
    runLoop "claude" {} {} {}
      [[("type", JVal.str "usage"),
        ("data", JVal.obj [("input_tokens", JVal.num 2), ("output_tokens", JVal.num 3)])],
       [("type", JVal.str "done")]] =
      .ok ({}, { usage := { input := 2, output := 3, total := 5 } }, {},
        [Frame.dataUsage (JVal.obj
          [("inputTokens", JVal.num 2), ("outputTokens", JVal.num 3),
           ("reasoningTokens", JVal.null), ("cachedTokens", JVal.null),
           ("stopReason", JVal.null), ("isTotal", JVal.bool false)])]) ∧
    (5 : Int) = 2 + 3 := by
  have happ := C8_total_equals_sum_without_explicit_total "claude"
    [[("type", JVal.str "usage"),
      ("data", JVal.obj [("input_tokens", JVal.num 2), ("output_tokens", JVal.num 3)])],
     [("type", JVal.str "done")]]
    {} { usage := { input := 2, output := 3, total := 5 } } {}
    [Frame.dataUsage (JVal.obj
      [("inputTokens", JVal.num 2), ("outputTokens", JVal.num 3),
       ("reasoningTokens", JVal.null), ("cachedTokens", JVal.null),
       ("stopReason", JVal.null), ("isTotal", JVal.bool false)])]
    [⟨.USAGE, .obj [("usage", .obj [("input_tokens", .num 2), ("output_tokens", .num 3)])],
       .null, .null⟩,
     ⟨.DONE, .obj [], .null, .null⟩]
    rfl
    (by
      intro e he
      simp only [List.mem_cons, List.not_mem_nil, or_false] at he
      rcases he with rfl | rfl <;> rfl)
  exact ⟨happ.1, happ.2.1⟩

/-! ## C9 -/

/-- C9 counterexample: the vendor session id captured from a
`message_start.message.id` (`"a"`) is OVERWRITTEN by a later `result`
event carrying a different `session_id` (`"b"`); `get_sdk_session_id`
returns `"b"`, not the first-captured `"a"`, refuting "later events
carrying a different id do not change the captured value". -/
theorem C9_counterexample_later_event_overwrites_sdk_session_id :
    ((do
      let (_, st1) ← parse "claude" {}
        [("type", JVal.str "message_start"), ("message", JVal.obj [("id", JVal.str "a")])]
      let (_, st2) ← parse "claude" st1
        [("type", JVal.str "result"), ("data", JVal.obj [("session_id", JVal.str "b")])]
      pure (getSdkSessionId st2)) = Except.ok (JVal.str "b"))
    ∧ JVal.str "b" ≠ JVal.str "a" :=
  ⟨rfl, by simp⟩

/-- C9 (amended): the captured vendor session id is LAST-write-wins — a
qualifying `result.session_id` (or `message_start.message.id`) always
overwrites whatever was captured before, whatever the prior parser state. -/
theorem C9_sdk_session_id_last_write_wins :
    (∀ (st : ParserState) (raw dfs : List (String × JVal)) (v : JVal),
      dGet raw "type" (.str "unknown") = .str "result" →
      dGet raw "data" (.obj []) = .obj dfs →
      lookupField dfs "session_id" = some v →
      truthy v = true →
      ∃ st', parse "claude" st raw = .ok (⟨.RESULT, .obj dfs, .null, .null⟩, st') ∧
        getSdkSessionId st' = .str (pyStr v))
    ∧
    (∀ (st : ParserState) (raw mfs : List (String × JVal)),
      dGet raw "type" (.str "unknown") = .str "message_start" →
      dGet raw "message" (.obj []) = .obj mfs →
      truthy (dGet mfs "id" .null) = true →
      ∃ ev st', parse "claude" st raw = .ok (ev, st') ∧
        getSdkSessionId st' = dGet mfs "id" .null) := by
  constructor
  · intro st raw dfs v htype hdata hlookup htruthy
    refine ⟨{ st with sdkSessionId := .str (pyStr v) }, ?_, rfl⟩
    have h1 : parse "claude" st raw = parseClaude st raw := by simp [parse]
    rw [h1]
    unfold parseClaude
    rw [htype, hdata]
    show (do
      let st1 ← captureSdk st (.obj dfs)
      pure ((⟨.RESULT, .obj dfs, .null, .null⟩ : StreamEvent), st1) :
        Except PyErr (StreamEvent × ParserState)) = _
    simp [captureSdk, pyIn, pySubscript, hlookup, htruthy, Bind.bind, Except.bind, pure,
      Except.pure]
  · intro st raw mfs htype hmsg htruthy
    refine ⟨⟨.START, .obj [("model", dGet mfs "model" .null),
        ("usage", dGet mfs "usage" (.obj []))], .null, .null⟩,
      { st with sdkSessionId := dGet mfs "id" .null }, ?_, rfl⟩
    have h1 : parse "claude" st raw = parseClaude st raw := by simp [parse]
    rw [h1]
    unfold parseClaude
    rw [htype]
    show handleMessageStart st raw = _
    unfold handleMessageStart
    rw [hmsg]
    simp [htruthy, Bind.bind, Except.bind, pure, Except.pure]

/-- C9 witness: from a state that already captured `"a"`, a `result` event
with `session_id = "b"` re-captures `"b"`. -/
theorem C9_witness :
    ∃ st', parse "claude" ({ sdkSessionId := JVal.str "a" } : ParserState)
        [("type", JVal.str "result"), ("data", JVal.obj [("session_id", JVal.str "b")])] =
        .ok (⟨.RESULT, .obj [("session_id", JVal.str "b")], .null, .null⟩, st') ∧
      getSdkSessionId st' = .str (pyStr (JVal.str "b")) :=
  C9_sdk_session_id_last_write_wins.1 { sdkSessionId := JVal.str "a" }
    [("type", JVal.str "result"), ("data", JVal.obj [("session_id", JVal.str "b")])]
    [("session_id", JVal.str "b")] (JVal.str "b") rfl rfl rfl rfl

/-! ## C10 -/

/-- Helper for C10: find over an appended session list. -/
theorem findSession_append (db : Db) (rows : List ChatSession) (sid : String) :
    findSession { db with sessions := db.sessions ++ rows } sid =
      ((db.sessions.find? (fun s => s.id == sid)).or (rows.find? (fun s => s.id == sid))) := by
  simp [findSession, List.find?_append]

/-- C10: when the request supplies a (non-empty, UUID-validated)
`session_id` that matches no existing session, the newly created session
adopts the client-chosen id verbatim (`new_id = session_id or uuid4()`),
the session is findable under that id afterwards, and a second
`get_or_create_session` with the same id resumes it (`is_new = false`,
same id) instead of minting a fresh one. -/
theorem C10_client_supplied_session_id_adopted
    (db : Db) (sid agentId agentName prompt freshSid : String)
    (agentId' agentName' prompt' freshSid' : String)
    (hmiss : findSession db sid = none) (hne : sid ≠ "") :
    ((getOrCreateSession db (some sid) agentId agentName prompt freshSid).2.1.id = sid) ∧
    ((getOrCreateSession db (some sid) agentId agentName prompt freshSid).2.2 = true) ∧
    (findSession (getOrCreateSession db (some sid) agentId agentName prompt freshSid).1 sid =
      some (getOrCreateSession db (some sid) agentId agentName prompt freshSid).2.1) ∧
    ((getOrCreateSession (getOrCreateSession db (some sid) agentId agentName prompt freshSid).1
        (some sid) agentId' agentName' prompt' freshSid').2.2 = false) ∧
    ((getOrCreateSession (getOrCreateSession db (some sid) agentId agentName prompt freshSid).1
        (some sid) agentId' agentName' prompt' freshSid').2.1.id = sid) := by
  have h0 : db.sessions.find? (fun s => s.id == sid) = none := hmiss
  have hmain : getOrCreateSession db (some sid) agentId agentName prompt freshSid =
      ({ db with sessions := db.sessions ++
          [{ id := sid, title := truncTitle prompt, agentId := agentId, agentName := agentName }] },
       { id := sid, title := truncTitle prompt, agentId := agentId, agentName := agentName }, true) := by
    simp [getOrCreateSession, optTruthy, hne, hmiss]
  have hfind : findSession { db with sessions := db.sessions ++
      [{ id := sid, title := truncTitle prompt, agentId := agentId, agentName := agentName }] } sid =
      some { id := sid, title := truncTitle prompt, agentId := agentId, agentName := agentName } := by
    rw [findSession_append, h0]
    simp
  rw [hmain]
  refine ⟨rfl, rfl, hfind, ?_, ?_⟩ <;>
    (simp [getOrCreateSession, optTruthy, hne, hfind]
     try (split <;> simp))

/-- C10 witness: creating a session under the client id `"S"` in an empty
database, then resuming it. -/
theorem C10_witness :
    ((getOrCreateSession {} (some "S") "A" "Agent" "hello" "fresh1").2.1.id = "S") ∧
    ((getOrCreateSession {} (some "S") "A" "Agent" "hello" "fresh1").2.2 = true) ∧
    (findSession (getOrCreateSession {} (some "S") "A" "Agent" "hello" "fresh1").1 "S" =
      some (getOrCreateSession {} (some "S") "A" "Agent" "hello" "fresh1").2.1) ∧
    ((getOrCreateSession (getOrCreateSession {} (some "S") "A" "Agent" "hello" "fresh1").1
        (some "S") "B" "Agent2" "again" "fresh2").2.2 = false) ∧
    ((getOrCreateSession (getOrCreateSession {} (some "S") "A" "Agent" "hello" "fresh1").1
        (some "S") "B" "Agent2" "again" "fresh2").2.1.id = "S") :=
  C10_client_supplied_session_id_adopted {} "S" "A" "Agent" "hello" "fresh1"
    "B" "Agent2" "again" "fresh2" rfl (by decide)
